import Mathlib

/-!
Verification development for the Curved Spaces geometric core
(`Source - common/C code`), a program that constructs Dirichlet
fundamental domains for discrete isometry groups of the three
constant-curvature 3-manifolds and renders the resulting honeycomb
of cell translates.

The C sources are shallowly embedded below.  `double` values are
modelled as exact rationals (`ℚ`); the transcendental library calls
(`sqrt`, `sin`, `cos`, `sinh`, `cosh`, `atan2`) and the two
geometric-distance helpers, which live outside the translated
sources, are passed in as an explicit `AnalyticOps` record, so every
definition stays executable and the theorems quantify over the
actual real-analytic instantiation.

The linear-algebra kernel (`CurvedSpacesMatrices.c`), the safe-math
helpers (`CurvedSpacesSafeMath.c`) and the color conversion
(`CurvedSpacesColors.c`) are declared in `CurvedSpaces-Common.h` but
their source files are not part of the translated tree; definitions
for them below are marked `Modelled from the spec:` and follow the
specification's description of the linear-algebra kernel (spec section 4.1).
-/

namespace CurvedSpaces

/-- Space type tag, from `CurvedSpaces-Common.h`:
`SpaceNone`, `SpaceSpherical`, `SpaceFlat`, `SpaceHyperbolic`. -/
inductive SpaceType where
  | spaceNone
  | spaceSpherical
  | spaceFlat
  | spaceHyperbolic
deriving DecidableEq, Repr, Inhabited

/-- Mirror-image parity of a matrix, from `CurvedSpaces-Common.h`:
`ImagePositive` (not mirror-reversed) or `ImageNegative`. -/
inductive ImageParity where
  | imagePositive
  | imageNegative
deriving DecidableEq, Repr, Inhabited

/-- `Vector`: four real components (`CurvedSpaces-Common.h`),
modelled with exact rationals. -/
structure Vector where
  x : ℚ
  y : ℚ
  z : ℚ
  w : ℚ
deriving DecidableEq, Repr

instance : Inhabited Vector := ⟨⟨0, 0, 0, 0⟩⟩

/-- `Matrix`: a 4×4 real matrix (row `i`, column `j` as `m[i][j]` in C)
together with its cached parity flag (`CurvedSpaces-Common.h`).
Row `i` of the C array `m[4][4]` is the `Vector` field `rowi`. -/
structure Matrix where
  row0 : Vector
  row1 : Vector
  row2 : Vector
  row3 : Vector
  parity : ImageParity
deriving DecidableEq, Repr

instance : Inhabited Matrix :=
  ⟨⟨default, default, default, default, ImageParity.imagePositive⟩⟩

/-- HSLA color (`CurvedSpaces-Common.h`). -/
structure HSLAColor where
  h : ℚ
  s : ℚ
  l : ℚ
  a : ℚ
deriving DecidableEq, Repr, Inhabited

/-- RGBA color with premultiplied alpha (`CurvedSpaces-Common.h`). -/
structure RGBAColor where
  r : ℚ
  g : ℚ
  b : ℚ
  a : ℚ
deriving DecidableEq, Repr, Inhabited

/-- The transcendental operations the core calls but does not define:
the C math library (`sqrt`, `sin`, `cos`, `sinh`, `cosh`, `atan2`),
the geometric-distance helpers and the HSLA→RGBA conversion from the
untranslated `CurvedSpacesMatrices.c` / `CurvedSpacesColors.c`.
Definitions below take an `AnalyticOps` argument wherever the C code
makes one of these calls, and the theorems quantify over it. -/
structure AnalyticOps where
  sqrtQ : ℚ → ℚ
  sinQ : ℚ → ℚ
  cosQ : ℚ → ℚ
  sinhQ : ℚ → ℚ
  coshQ : ℚ → ℚ
  atan2Q : ℚ → ℚ → ℚ
  /-- `VectorGeometricDistance`: geometric distance from the basepoint
  to a (normalized) point, transcendental in all three geometries. -/
  geometricDistance : Vector → ℚ
  /-- `VectorGeometricDistance2`: geometric distance between two points. -/
  geometricDistance2 : Vector → Vector → ℚ
  /-- `HSLAtoRGBA` from the untranslated `CurvedSpacesColors.c`. -/
  hslaToRGBA : HSLAColor → RGBAColor

/-- The exact rational value of the C macro `PI` from
`CurvedSpaces-Common.h` (a decimal literal, hence exactly representable). -/
def piQ : ℚ := 3.14159265358979323846

/-- Modelled from the spec: `VectorDotProduct` of the linear-algebra
kernel (spec section 4.1), the plain Euclidean dot product of two 4-vectors. -/
def vectorDotProduct (a b : Vector) : ℚ :=
  a.x * b.x + a.y * b.y + a.z * b.z + a.w * b.w

/-- Modelled from the spec: `VectorNegate` of the linear-algebra kernel. -/
def vectorNegate (a : Vector) : Vector :=
  ⟨-a.x, -a.y, -a.z, -a.w⟩

/-- Modelled from the spec: `VectorSum` of the linear-algebra kernel. -/
def vectorSum (a b : Vector) : Vector :=
  ⟨a.x + b.x, a.y + b.y, a.z + b.z, a.w + b.w⟩

/-- Modelled from the spec: `VectorDifference` of the linear-algebra kernel. -/
def vectorDifference (a b : Vector) : Vector :=
  ⟨a.x - b.x, a.y - b.y, a.z - b.z, a.w - b.w⟩

/-- Modelled from the spec: `ScalarTimesVector` of the linear-algebra kernel. -/
def scalarTimesVector (s : ℚ) (a : Vector) : Vector :=
  ⟨s * a.x, s * a.y, s * a.z, s * a.w⟩

/-- Modelled from the spec: `VectorTernaryCrossProduct`, the ℝ⁴ analog of
the cross product, producing a vector orthogonal to the three factors
(spec section 4.1), via cofactor expansion along the first row of the
formal determinant `det (e; a; b; c)`. -/
def vectorTernaryCrossProduct (a b c : Vector) : Vector :=
  { x :=   (a.y * (b.z * c.w - b.w * c.z)
          - a.z * (b.y * c.w - b.w * c.y)
          + a.w * (b.y * c.z - b.z * c.y))
    y := - (a.x * (b.z * c.w - b.w * c.z)
          - a.z * (b.x * c.w - b.w * c.x)
          + a.w * (b.x * c.z - b.z * c.x))
    z :=   (a.x * (b.y * c.w - b.w * c.y)
          - a.y * (b.x * c.w - b.w * c.x)
          + a.w * (b.x * c.y - b.y * c.x))
    w := - (a.x * (b.y * c.z - b.z * c.y)
          - a.y * (b.x * c.z - b.z * c.x)
          + a.z * (b.x * c.y - b.y * c.x)) }

/-- Modelled from the spec: `VectorTimesMatrix` of the linear-algebra
kernel, the row vector `a` times the matrix `m`. -/
def vectorTimesMatrix (a : Vector) (m : Matrix) : Vector :=
  { x := a.x * m.row0.x + a.y * m.row1.x + a.z * m.row2.x + a.w * m.row3.x
    y := a.x * m.row0.y + a.y * m.row1.y + a.z * m.row2.y + a.w * m.row3.y
    z := a.x * m.row0.z + a.y * m.row1.z + a.z * m.row2.z + a.w * m.row3.z
    w := a.x * m.row0.w + a.y * m.row1.w + a.z * m.row2.w + a.w * m.row3.w }

/-- Modelled from the spec: `MatrixIdentity` of the linear-algebra kernel. -/
def matrixIdentity : Matrix :=
  { row0 := ⟨1, 0, 0, 0⟩
    row1 := ⟨0, 1, 0, 0⟩
    row2 := ⟨0, 0, 1, 0⟩
    row3 := ⟨0, 0, 0, 1⟩
    parity := ImageParity.imagePositive }

/-- Modelled from the spec: `MatrixIsIdentity` of the linear-algebra
kernel, testing whether all sixteen entries equal the identity matrix's. -/
def matrixIsIdentity (m : Matrix) : Bool :=
  m.row0 = ⟨1, 0, 0, 0⟩ ∧ m.row1 = ⟨0, 1, 0, 0⟩ ∧
  m.row2 = ⟨0, 0, 1, 0⟩ ∧ m.row3 = ⟨0, 0, 0, 1⟩

/-- Modelled from the spec: `MatrixEquality` of the linear-algebra kernel,
equality-within-epsilon on all sixteen matrix entries (spec section 4.3:
"within a tight tolerance (1e-6 on all matrix entries)"). -/
def vectorEqualityEps (a b : Vector) (eps : ℚ) : Bool :=
  |a.x - b.x| ≤ eps ∧ |a.y - b.y| ≤ eps ∧ |a.z - b.z| ≤ eps ∧ |a.w - b.w| ≤ eps

/-- Modelled from the spec: `MatrixEquality`, entrywise comparison
within `eps` of the two matrices' sixteen entries. -/
def matrixEquality (a b : Matrix) (eps : ℚ) : Bool :=
  vectorEqualityEps a.row0 b.row0 eps ∧ vectorEqualityEps a.row1 b.row1 eps ∧
  vectorEqualityEps a.row2 b.row2 eps ∧ vectorEqualityEps a.row3 b.row3 eps

/-- Modelled from the spec: `MatrixProduct` of the linear-algebra kernel.
Row `i` of the product is row `i` of `a` times `b`; the parity of a
product of isometries is the product of the parities (spec section 8:
"the product of two matrices with determinant signs s1, s2 has
determinant sign s1·s2"). -/
def matrixProduct (a b : Matrix) : Matrix :=
  { row0 := vectorTimesMatrix a.row0 b
    row1 := vectorTimesMatrix a.row1 b
    row2 := vectorTimesMatrix a.row2 b
    row3 := vectorTimesMatrix a.row3 b
    parity := if a.parity = b.parity then ImageParity.imagePositive
              else ImageParity.imageNegative }

/-- Modelled from the spec: `MatrixGeometricInverse` of the linear-algebra
kernel (spec section 4.1, "geometric inverse").  The inverse of an isometry
of the ambient geometry: the metric-transpose `J Mᵀ J` for the spherical
(`J = I`) and hyperbolic (`J = diag(1,1,1,-1)`) cases, and
`[Rᵀ 0; -t Rᵀ 1]` for a flat isometry `[R 0; t 1]`.  The geometry is
inferred from the `(3,3)` entry exactly as `MakeHalfspaceInequality`
in `CurvedSpacesDirichlet.c` infers it. -/
def matrixGeometricInverse (m : Matrix) : Matrix :=
  if m.row3.w < 1 then
    -- spherical: the inverse of an orthogonal matrix is its transpose
    { row0 := ⟨m.row0.x, m.row1.x, m.row2.x, m.row3.x⟩
      row1 := ⟨m.row0.y, m.row1.y, m.row2.y, m.row3.y⟩
      row2 := ⟨m.row0.z, m.row1.z, m.row2.z, m.row3.z⟩
      row3 := ⟨m.row0.w, m.row1.w, m.row2.w, m.row3.w⟩
      parity := m.parity }
  else if m.row3.w = 1 then
    -- flat: for [R 0; t 1] the inverse is [Rᵀ 0; -t Rᵀ 1]
    { row0 := ⟨m.row0.x, m.row1.x, m.row2.x, 0⟩
      row1 := ⟨m.row0.y, m.row1.y, m.row2.y, 0⟩
      row2 := ⟨m.row0.z, m.row1.z, m.row2.z, 0⟩
      row3 := ⟨-(m.row3.x * m.row0.x + m.row3.y * m.row0.y + m.row3.z * m.row0.z),
               -(m.row3.x * m.row1.x + m.row3.y * m.row1.y + m.row3.z * m.row1.z),
               -(m.row3.x * m.row2.x + m.row3.y * m.row2.y + m.row3.z * m.row2.z),
               1⟩
      parity := m.parity }
  else
    -- hyperbolic: J Mᵀ J with J = diag(1,1,1,-1)
    { row0 := ⟨m.row0.x, m.row1.x, m.row2.x, -m.row3.x⟩
      row1 := ⟨m.row0.y, m.row1.y, m.row2.y, -m.row3.y⟩
      row2 := ⟨m.row0.z, m.row1.z, m.row2.z, -m.row3.z⟩
      row3 := ⟨-m.row0.w, -m.row1.w, -m.row2.w, m.row3.w⟩
      parity := m.parity }

/-- Modelled from the spec: `VectorNormalize` of the linear-algebra kernel
(spec section 4.1): geometry-aware normalization that "divides by the
time-like/last coordinate differently per SpaceType" and "fails (reports an
error) when the input vector has non-positive length under the active
metric".  Spherical: scale to the unit 3-sphere; flat: divide by the last
coordinate; hyperbolic: scale to the unit hyperboloid of the Minkowski
metric.  Returns `Except` with the error message on degenerate input. -/
def vectorNormalize (ops : AnalyticOps) (a : Vector) (s : SpaceType) :
    Except String Vector :=
  match s with
  | SpaceType.spaceSpherical =>
      let lengthSquared := vectorDotProduct a a
      if lengthSquared ≤ 0 then
        Except.error "VectorNormalize() received a degenerate vector."
      else
        let f := 1 / ops.sqrtQ lengthSquared
        Except.ok (scalarTimesVector f a)
  | SpaceType.spaceFlat =>
      if a.w ≤ 0 then
        Except.error "VectorNormalize() received a degenerate vector."
      else
        Except.ok ⟨a.x / a.w, a.y / a.w, a.z / a.w, 1⟩
  | SpaceType.spaceHyperbolic =>
      let lengthSquared := a.w * a.w - a.x * a.x - a.y * a.y - a.z * a.z
      if lengthSquared ≤ 0 then
        Except.error "VectorNormalize() received a degenerate vector."
      else
        let f := 1 / ops.sqrtQ lengthSquared
        Except.ok (scalarTimesVector f a)
  | SpaceType.spaceNone =>
      Except.error "VectorNormalize() received SpaceNone."

end CurvedSpaces

namespace CurvedSpaces

/-! ### The half-edge mesh (`CurvedSpacesDirichlet.c`)

The C code links `HEVertex`, `HEHalfEdge` and `HEFace` records with raw
pointers kept on NULL-terminated linked lists.  The embedding keys each
record by a numeric id and keeps the three linked lists as association
lists in the same order as the C lists (new records are prepended,
exactly as the C code pushes them onto the list heads).  Pointer reads
become id lookups; a dangling id yields the default record, a state the
C program could only reach through undefined behavior. -/

/-- Epsilon constants from the top of `CurvedSpacesDirichlet.c`. -/
def planarityEpsilon : ℚ := 1e-4

/-- `HYPERPLANARITY_EPSILON` from `CurvedSpacesDirichlet.c`. -/
def hyperplanarityEpsilon : ℚ := 1e-4

/-- `ORDER_EPSILON` from `CurvedSpacesDirichlet.c`. -/
def orderEpsilon : ℚ := 1e-6

/-- `VERTEX_HALFSPACE_EPSILON` from `CurvedSpacesDirichlet.c`. -/
def vertexHalfspaceEpsilon : ℚ := 1e-6

/-- `MATE_MATRIX_EPSILON` from `CurvedSpacesDirichlet.c`. -/
def mateMatrixEpsilon : ℚ := 1e-6

/-- `RESTORING_EPSILON` from `CurvedSpacesDirichlet.c`. -/
def restoringEpsilon : ℚ := 1e-8

/-- `VERTEX_FIGURE_SIZE` from `CurvedSpacesDirichlet.c`. -/
def vertexFigureSize : ℚ := 0.1

/-- `VERTEX_FIGURE_CUTOUT` from `CurvedSpacesDirichlet.c`. -/
def vertexFigureCutout : ℚ := 0.7

/-- `VertexVsHalfspace` from `CurvedSpacesDirichlet.c`. -/
inductive VertexVsHalfspace where
  | vertexInsideHalfspace
  | vertexOnBoundary
  | vertexOutsideHalfspace
deriving DecidableEq, Repr, Inhabited

/-- `HEVertex` from `CurvedSpacesDirichlet.c`.  The C `itsNext` link is
represented by the vertex's position in `HEPolyhedron.vertexList`. -/
structure HEVertex where
  rawPosition : Vector
  normalizedPosition : Vector
  outboundHalfEdge : ℕ
  halfspaceStatus : VertexVsHalfspace
  centerPoint : Vector
deriving DecidableEq, Repr, Inhabited

/-- `HEHalfEdge` from `CurvedSpacesDirichlet.c`.  `tip`, `mate`, `cycle`
and `face` are ids into the owning polyhedron's lists. -/
structure HEHalfEdge where
  tip : ℕ
  mate : ℕ
  cycle : ℕ
  face : ℕ
  base : ℚ
  altitude : ℚ
  deletionFlag : Bool
  outerPoint : Vector
  innerPoint : Vector
deriving DecidableEq, Repr, Inhabited

/-- `HEFace` from `CurvedSpacesDirichlet.c`. -/
structure HEFace where
  halfEdge : ℕ
  halfspace : Vector
  matrix : Matrix
  colorIndex : ℕ
  colorRGBA : RGBAColor
  colorGreyscale : ℚ
  rawCenter : Vector
  normalizedCenter : Vector
  deletionFlag : Bool
deriving DecidableEq, Repr, Inhabited

/-- `HEPolyhedron` from `CurvedSpacesDirichlet.c` (the opaque
`DirichletDomain` of `CurvedSpaces-Common.h`): the three entity lists
plus the recorded space type and outradius.  `freshId` supplies ids for
newly allocated records. -/
structure HEPolyhedron where
  vertexList : List (ℕ × HEVertex)
  halfEdgeList : List (ℕ × HEHalfEdge)
  faceList : List (ℕ × HEFace)
  spaceType : SpaceType
  outradius : ℚ
  freshId : ℕ
deriving DecidableEq, Repr, Inhabited

/-- The opaque typedef `DirichletDomain` of `CurvedSpaces-Common.h`. -/
abbrev DirichletDomain := HEPolyhedron

namespace HEPolyhedron

/-- Read the vertex with the given id (pointer dereference in C). -/
def vert (p : HEPolyhedron) (i : ℕ) : HEVertex :=
  ((p.vertexList.lookup i).getD default)

/-- Read the half edge with the given id. -/
def edge (p : HEPolyhedron) (i : ℕ) : HEHalfEdge :=
  ((p.halfEdgeList.lookup i).getD default)

/-- Read the face with the given id. -/
def face (p : HEPolyhedron) (i : ℕ) : HEFace :=
  ((p.faceList.lookup i).getD default)

/-- Write through a vertex pointer: update the vertex with id `i`. -/
def setVert (p : HEPolyhedron) (i : ℕ) (f : HEVertex → HEVertex) : HEPolyhedron :=
  { p with vertexList := p.vertexList.map fun q => if q.1 = i then (q.1, f q.2) else q }

/-- Write through a half-edge pointer: update the half edge with id `i`. -/
def setEdge (p : HEPolyhedron) (i : ℕ) (f : HEHalfEdge → HEHalfEdge) : HEPolyhedron :=
  { p with halfEdgeList := p.halfEdgeList.map fun q => if q.1 = i then (q.1, f q.2) else q }

/-- Write through a face pointer: update the face with id `i`. -/
def setFace (p : HEPolyhedron) (i : ℕ) (f : HEFace → HEFace) : HEPolyhedron :=
  { p with faceList := p.faceList.map fun q => if q.1 = i then (q.1, f q.2) else q }

end HEPolyhedron

/-- `StayInDirichletDomain` from `CurvedSpacesDirichlet.c`: for each face
of the Dirichlet domain, evaluate the halfspace equation on the image of
the basepoint `(0,0,0,1)` under `aPlacement` (the last row of the
placement matrix); whenever the value exceeds `RESTORING_EPSILON`,
multiply the placement by the geometric inverse of that face's matrix.
A NULL Dirichlet domain (3-sphere / projective 3-space) is the `none`
case and leaves the placement untouched. -/
def stayInDirichletDomainFaces (faces : List (ℕ × HEFace)) (aPlacement : Matrix) :
    Matrix :=
  faces.foldl
    (fun placement q =>
      let theFace := q.2
      let theFaceValue :=
        theFace.halfspace.x * placement.row3.x
        + theFace.halfspace.y * placement.row3.y
        + theFace.halfspace.z * placement.row3.z
        + theFace.halfspace.w * placement.row3.w
      if theFaceValue > restoringEpsilon then
        matrixProduct placement (matrixGeometricInverse theFace.matrix)
      else
        placement)
    aPlacement

/-- `StayInDirichletDomain` itself, with the NULL-domain special case. -/
def stayInDirichletDomain (aDirichletDomain : Option DirichletDomain)
    (aPlacement : Matrix) : Matrix :=
  match aDirichletDomain with
  | none => aPlacement
  | some d => stayInDirichletDomainFaces d.faceList aPlacement

/-- The halfspace value `StayInDirichletDomain` computes for one face:
the face's halfspace inequality evaluated on the image of the basepoint
under the placement. -/
def faceValueAt (theFace : HEFace) (placement : Matrix) : ℚ :=
  theFace.halfspace.x * placement.row3.x
  + theFace.halfspace.y * placement.row3.y
  + theFace.halfspace.z * placement.row3.z
  + theFace.halfspace.w * placement.row3.w

end CurvedSpaces

namespace CurvedSpaces

/-! ### Honeycomb and simulation state (`CurvedSpaces-Common.h`) -/

/-- `Honeycell` from `CurvedSpaces-Common.h`: a group matrix, the world
space image of the basepoint under it, and the per-frame distance cache. -/
structure Honeycell where
  matrix : Matrix
  cellCenterInWorldSpace : Vector
  distanceCameraToCellCenter : ℚ
deriving DecidableEq, Repr, Inhabited

/-- `Honeycomb` from `CurvedSpaces-Common.h`: the fixed cell list plus
the per-frame visible-cell list and its plain/reflected counts.  The C
`itsVisibleCells` pointer array is modelled as a list of cells;
`itsNumVisibleCells` is kept as an explicit counter exactly as in C. -/
structure Honeycomb where
  cells : List Honeycell
  numVisibleCells : ℕ
  numVisiblePlainCells : ℕ
  numVisibleReflectedCells : ℕ
  visibleCells : List Honeycell
deriving DecidableEq, Repr, Inhabited

/-- `CenterpieceType` from `CurvedSpaces-Common.h` (default build). -/
inductive CenterpieceType where
  | centerpieceNone
  | centerpieceEarth
  | centerpieceGalaxy
  | centerpieceGyroscope
deriving DecidableEq, Repr, Inhabited

/-- `CliffordMode` from `CurvedSpaces-Common.h`. -/
inductive CliffordMode where
  | cliffordNone
  | cliffordBicolor
  | cliffordCenterlines
  | cliffordOneSet
  | cliffordTwoSets
  | cliffordThreeSets
deriving DecidableEq, Repr, Inhabited

/-- `ModelData` from `CurvedSpaces-Common.h` (default build: no
compile-time presentation flags), the root simulation state.
`itsChangeCount` is a `uint64_t` in C whose wraparound the code itself
documents as harmless; it is modelled as `ℕ`. -/
structure ModelData where
  changeCount : ℕ
  spaceType : SpaceType
  drawBackHemisphere : Bool
  threeSphereFlag : Bool
  horizonRadius : ℚ
  userBodyPlacement : Matrix
  userSpeed : ℚ
  prePauseUserSpeed : ℚ
  dirichletDomain : Option DirichletDomain
  honeycomb : Option Honeycomb
  aperture : ℚ
  dirichletWallsMeshNeedsRefresh : Bool
  vertexFigureMeshNeedsReplacement : Bool
  centerpieceType : CenterpieceType
  rotationAngle : ℚ
  showObserver : Bool
  showColorCoding : Bool
  cliffordMode : CliffordMode
  showVertexFigures : Bool
  fogFlag : Bool
deriving DecidableEq, Inhabited

/-! ### Gestures (`CurvedSpacesGestures.c`) -/

/-- `APERTURE_DILATION_CONSTANT` from `CurvedSpacesGestures.c`. -/
def apertureDilationConstant : ℚ := 0.5

/-- `GestureRotate` from `CurvedSpacesGestures.c`: premultiply the user
body placement by a rotation by `anAngle` in the xy-plane and bump the
change count. -/
def gestureRotate (ops : AnalyticOps) (md : ModelData) (anAngle : ℚ) : ModelData :=
  let c := ops.cosQ anAngle
  let s := ops.sinQ anAngle
  let theRotation : Matrix :=
    { row0 := ⟨c, -s, 0, 0⟩
      row1 := ⟨s, c, 0, 0⟩
      row2 := ⟨0, 0, 1, 0⟩
      row3 := ⟨0, 0, 0, 1⟩
      parity := ImageParity.imagePositive }
  { md with
      userBodyPlacement := matrixProduct theRotation md.userBodyPlacement
      changeCount := md.changeCount + 1 }

/-- `GesturePinch` from `CurvedSpacesGestures.c`: move the aperture by
an amount proportional to the change in the expansion factor, clamp to
`[0,1]`, flag the wall mesh for refresh and bump the change count. -/
def gesturePinch (md : ModelData) (anExpansionFactor : ℚ) : ModelData :=
  let a0 := md.aperture + apertureDilationConstant * (anExpansionFactor - 1)
  let a1 := if a0 < 0 then 0 else a0
  let a2 := if a1 > 1 then 1 else a1
  { md with
      aperture := a2
      dirichletWallsMeshNeedsRefresh := true
      changeCount := md.changeCount + 1 }

/-- `GestureTap` from `CurvedSpacesGestures.c`: toggle between motion
and pause.  If the user speed is nonzero, remember it in
`prePauseUserSpeed` and stop; otherwise restore the remembered speed and
clear it.  The C code deliberately does not touch `itsChangeCount`
("No need to increment md->itsChangeCount.  The caller will refresh the
speed slider."). -/
def gestureTap (md : ModelData) : ModelData :=
  if md.userSpeed ≠ 0 then
    { md with
        prePauseUserSpeed := md.userSpeed
        userSpeed := 0 }
  else
    { md with
        userSpeed := md.prePauseUserSpeed
        prePauseUserSpeed := 0 }

/-! ### Simulation (`CurvedSpacesSimulation.c`) -/

/-- `MAX_FRAME_PERIOD` from `CurvedSpacesSimulation.c`. -/
def maxFramePeriod : ℚ := 0.1

/-- `CENTERPIECE_ANGULAR_VELOCITY` from `CurvedSpacesSimulation.c`
(default build, no `CENTERPIECE_DISPLACEMENT`). -/
def centerpieceAngularVelocity : ℚ := 0.1

/-- `FastGramSchmidt` row normalization: rescale one row to unit length
under the given diagonal metric (`CurvedSpacesSimulation.c`). -/
def gramSchmidtNormalizeRow (ops : AnalyticOps) (metric r : Vector) : Vector :=
  let theInnerProduct :=
    metric.x * r.x * r.x + metric.y * r.y * r.y
    + metric.z * r.z * r.z + metric.w * r.w * r.w
  let theFactor := 1 / ops.sqrtQ theInnerProduct
  scalarTimesVector theFactor r

/-- The metric-weighted inner product of two rows used by
`FastGramSchmidt` (`CurvedSpacesSimulation.c`). -/
def gramSchmidtInner (metric r s : Vector) : ℚ :=
  metric.x * r.x * s.x + metric.y * r.y * s.y
  + metric.z * r.z * s.z + metric.w * r.w * s.w

/-- `FastGramSchmidt` from `CurvedSpacesSimulation.c`: first-order
Gram-Schmidt renormalization of a placement matrix.  Each row is
normalized to unit length under the geometry's metric (the last row uses
the second metric of the pair), then rows are orthogonalized from the
last row upward, subtracting the metric-weighted projection of each
lower row onto each already-processed row.  `SpaceNone` returns the
matrix unchanged (the C `default: return` branch). -/
def fastGramSchmidt (ops : AnalyticOps) (aMatrix : Matrix) (aSpaceType : SpaceType) :
    Matrix :=
  match aSpaceType with
  | SpaceType.spaceNone => aMatrix
  | _ =>
    let metricHorizontal : Vector :=
      match aSpaceType with
      | SpaceType.spaceSpherical => ⟨1, 1, 1, 1⟩
      | SpaceType.spaceFlat => ⟨1, 1, 1, 0⟩
      | _ => ⟨1, 1, 1, -1⟩
    let metricVertical : Vector :=
      match aSpaceType with
      | SpaceType.spaceSpherical => ⟨1, 1, 1, 1⟩
      | SpaceType.spaceFlat => ⟨0, 0, 0, 1⟩
      | _ => ⟨-1, -1, -1, 1⟩
    -- normalize each row to unit length
    let n0 := gramSchmidtNormalizeRow ops metricHorizontal aMatrix.row0
    let n1 := gramSchmidtNormalizeRow ops metricHorizontal aMatrix.row1
    let n2 := gramSchmidtNormalizeRow ops metricHorizontal aMatrix.row2
    let n3 := gramSchmidtNormalizeRow ops metricVertical aMatrix.row3
    -- make the rows orthogonal, from the last row upward (i = 3, 2, 1)
    let a2 := vectorDifference n2 (scalarTimesVector (gramSchmidtInner metricVertical n3 n2) n3)
    let a1 := vectorDifference n1 (scalarTimesVector (gramSchmidtInner metricVertical n3 n1) n3)
    let a0 := vectorDifference n0 (scalarTimesVector (gramSchmidtInner metricVertical n3 n0) n3)
    let b1 := vectorDifference a1 (scalarTimesVector (gramSchmidtInner metricHorizontal a2 a1) a2)
    let b0 := vectorDifference a0 (scalarTimesVector (gramSchmidtInner metricHorizontal a2 a0) a2)
    let c0 := vectorDifference b0 (scalarTimesVector (gramSchmidtInner metricHorizontal b1 b0) b1)
    { aMatrix with row0 := c0, row1 := b1, row2 := a2, row3 := n3 }

/-- `UpdateCenterpieceRotation` from `CurvedSpacesSimulation.c`. -/
def updateCenterpieceRotation (md : ModelData) (aFramePeriod : ℚ) : ModelData :=
  let theAngle := md.rotationAngle - aFramePeriod * centerpieceAngularVelocity
  { md with rotationAngle := if theAngle < 0 then theAngle + 2 * piQ else theAngle }

/-- `UpdateUserPlacement` from `CurvedSpacesSimulation.c` (default
build): move the observer forward by `userSpeed * aFramePeriod` with the
geometry-specific translation matrix, reduce back into the fundamental
domain, and renormalize with `FastGramSchmidt`. -/
def updateUserPlacement (ops : AnalyticOps) (md : ModelData) (aFramePeriod : ℚ) :
    ModelData :=
  let d := md.userSpeed * aFramePeriod
  let theIncrement : Matrix :=
    match md.spaceType with
    | SpaceType.spaceSpherical =>
        { matrixIdentity with
            row2 := ⟨0, 0, ops.cosQ d, -(ops.sinQ d)⟩
            row3 := ⟨0, 0, ops.sinQ d, ops.cosQ d⟩ }
    | SpaceType.spaceFlat =>
        { matrixIdentity with row3 := ⟨0, 0, d, 1⟩ }
    | SpaceType.spaceHyperbolic =>
        { matrixIdentity with
            row2 := ⟨0, 0, ops.coshQ d, ops.sinhQ d⟩
            row3 := ⟨0, 0, ops.sinhQ d, ops.coshQ d⟩ }
    | SpaceType.spaceNone => matrixIdentity
  let thePlacementA := matrixProduct theIncrement md.userBodyPlacement
  let thePlacementB := stayInDirichletDomain md.dirichletDomain thePlacementA
  let thePlacementC := fastGramSchmidt ops thePlacementB md.spaceType
  { md with userBodyPlacement := thePlacementC }

/-- `SimulationUpdate` from `CurvedSpacesSimulation.c` (default build):
clamp the frame period to `MAX_FRAME_PERIOD`, rotate the centerpiece,
update the user placement, and bump the change count. -/
def simulationUpdate (ops : AnalyticOps) (md : ModelData) (aFramePeriod : ℚ) :
    ModelData :=
  let theFramePeriod := if aFramePeriod > maxFramePeriod then maxFramePeriod else aFramePeriod
  let md1 := updateCenterpieceRotation md theFramePeriod
  let md2 := updateUserPlacement ops md1 theFramePeriod
  { md2 with changeCount := md2.changeCount + 1 }

/-! ### Option setters (`CurvedSpacesOptions.c`) -/

/-- `SetCenterpiece` from `CurvedSpacesOptions.c`. -/
def setCenterpiece (md : ModelData) (aCenterpieceChoice : CenterpieceType) : ModelData :=
  { md with centerpieceType := aCenterpieceChoice, changeCount := md.changeCount + 1 }

/-- `SetShowObserver` from `CurvedSpacesOptions.c`. -/
def setShowObserver (md : ModelData) (aShowObserverChoice : Bool) : ModelData :=
  { md with showObserver := aShowObserverChoice, changeCount := md.changeCount + 1 }

/-- `SetShowColorCoding` from `CurvedSpacesOptions.c`. -/
def setShowColorCoding (md : ModelData) (aShowColorCodingChoice : Bool) : ModelData :=
  { md with
      showColorCoding := aShowColorCodingChoice
      dirichletWallsMeshNeedsRefresh := true
      changeCount := md.changeCount + 1 }

/-- `SetShowCliffordParallels` from `CurvedSpacesOptions.c`. -/
def setShowCliffordParallels (md : ModelData) (aCliffordMode : CliffordMode) : ModelData :=
  { md with cliffordMode := aCliffordMode, changeCount := md.changeCount + 1 }

/-- `SetShowVertexFigures` from `CurvedSpacesOptions.c`. -/
def setShowVertexFigures (md : ModelData) (aShowVertexFiguresChoice : Bool) : ModelData :=
  { md with showVertexFigures := aShowVertexFiguresChoice, changeCount := md.changeCount + 1 }

/-- `SetFogFlag` from `CurvedSpacesOptions.c`. -/
def setFogFlag (md : ModelData) (aFogFlag : Bool) : ModelData :=
  { md with fogFlag := aFogFlag, changeCount := md.changeCount + 1 }

end CurvedSpaces

namespace CurvedSpaces

/-! ### Visibility culling and sorting (`CurvedSpacesDirichlet.c`) -/

/-- `CharacteristicViewSize` from `CurvedSpacesProjection.c`: half of
the larger of the two frame dimensions (the distance in the view that
subtends a 45° angle). -/
def characteristicViewSize (aFrameWidth aFrameHeight : ℚ) : ℚ :=
  (1 / 2) * (if aFrameWidth ≥ aFrameHeight then aFrameWidth else aFrameHeight)

/-- `MakeCullingHyperplanes` from `CurvedSpacesDirichlet.c`: the four
inward-pointing unit normal vectors to the hyperplanes through the view
frustum's side faces and the origin of the embedding space. -/
def makeCullingHyperplanes (ops : AnalyticOps) (anImageWidth anImageHeight : ℚ) :
    Vector × Vector × Vector × Vector :=
  let w := (1 / 2) * anImageWidth
  let h := (1 / 2) * anImageHeight
  let c := characteristicViewSize anImageWidth anImageHeight
  let theInverseLengthWC := 1 / ops.sqrtQ (w * w + c * c)
  let theInverseLengthHC := 1 / ops.sqrtQ (h * h + c * c)
  (⟨-c * theInverseLengthWC, 0, w * theInverseLengthWC, 0⟩,
   ⟨c * theInverseLengthWC, 0, w * theInverseLengthWC, 0⟩,
   ⟨0, -c * theInverseLengthHC, h * theInverseLengthHC, 0⟩,
   ⟨0, c * theInverseLengthHC, h * theInverseLengthHC, 0⟩)

/-- The per-plane test inside `BoundingSphereIntersectsViewFrustum`:
the dot product of the cell center with the plane's unit normal
(whose fourth component is always zero), compared against minus the
adjusted Dirichlet-domain radius. -/
def cullingPlaneAdmits (aCellCenterInCameraSpace : Vector)
    (anAdjustedDirichletDomainRadius : ℚ) (aPlane : Vector) : Bool :=
  let theAdjustedDistance :=
    aCellCenterInCameraSpace.x * aPlane.x
    + aCellCenterInCameraSpace.y * aPlane.y
    + aCellCenterInCameraSpace.z * aPlane.z
  ¬ (theAdjustedDistance < -anAdjustedDirichletDomainRadius)

/-- `BoundingSphereIntersectsViewFrustum` from `CurvedSpacesDirichlet.c`:
the cell's bounding sphere survives all four culling-plane tests. -/
def boundingSphereIntersectsViewFrustum (aCellCenterInCameraSpace : Vector)
    (anAdjustedDirichletDomainRadius : ℚ)
    (someCullingPlanes : Vector × Vector × Vector × Vector) : Bool :=
  cullingPlaneAdmits aCellCenterInCameraSpace anAdjustedDirichletDomainRadius someCullingPlanes.1
  && cullingPlaneAdmits aCellCenterInCameraSpace anAdjustedDirichletDomainRadius someCullingPlanes.2.1
  && cullingPlaneAdmits aCellCenterInCameraSpace anAdjustedDirichletDomainRadius someCullingPlanes.2.2.1
  && cullingPlaneAdmits aCellCenterInCameraSpace anAdjustedDirichletDomainRadius someCullingPlanes.2.2.2

/-- Accumulator for the per-cell loop of `CullAndSortVisibleCells`:
the rewritten cell array (each cell with its refreshed distance cache),
the visible-cell list in encounter order, and the three counters the C
code increments. -/
structure CullAccumulator where
  cells : List Honeycell
  visible : List Honeycell
  numVisible : ℕ
  numPlain : ℕ
  numReflected : ℕ
deriving Repr

/-- One iteration of the cell loop in `CullAndSortVisibleCells`:
transform the cell center into camera space, refresh the distance
cache, and if the cell is accepted append it to the visible list and
bump the total and the matching parity counter. -/
def cullStep (ops : AnalyticOps) (aViewMatrix : Matrix)
    (theAdjustedDirichletDomainRadius theTilingRadius : ℚ)
    (theCullingHyperplanes : Vector × Vector × Vector × Vector)
    (aSpaceType : SpaceType) (acc : CullAccumulator) (theHoneycell : Honeycell) :
    CullAccumulator :=
  let theCellCenterInCameraSpace :=
    vectorTimesMatrix theHoneycell.cellCenterInWorldSpace aViewMatrix
  let theUpdatedCell :=
    { theHoneycell with
        distanceCameraToCellCenter := ops.geometricDistance theCellCenterInCameraSpace }
  let theCellIsVisible :=
    aSpaceType = SpaceType.spaceSpherical
    ∨ (theCellCenterInCameraSpace.z > -theAdjustedDirichletDomainRadius
       ∧ theUpdatedCell.distanceCameraToCellCenter < theTilingRadius
       ∧ boundingSphereIntersectsViewFrustum theCellCenterInCameraSpace
           theAdjustedDirichletDomainRadius theCullingHyperplanes = true)
  if theCellIsVisible then
    { cells := acc.cells ++ [theUpdatedCell]
      visible := acc.visible ++ [theUpdatedCell]
      numVisible := acc.numVisible + 1
      numPlain :=
        if theUpdatedCell.matrix.parity = aViewMatrix.parity then acc.numPlain + 1
        else acc.numPlain
      numReflected :=
        if theUpdatedCell.matrix.parity = aViewMatrix.parity then acc.numReflected
        else acc.numReflected + 1 }
  else
    { acc with cells := acc.cells ++ [theUpdatedCell] }

/-- The full cell loop of `CullAndSortVisibleCells`, before sorting. -/
def cullPass (ops : AnalyticOps) (cells : List Honeycell) (aViewMatrix : Matrix)
    (theAdjustedDirichletDomainRadius theTilingRadius : ℚ)
    (theCullingHyperplanes : Vector × Vector × Vector × Vector)
    (aSpaceType : SpaceType) : CullAccumulator :=
  cells.foldl
    (cullStep ops aViewMatrix theAdjustedDirichletDomainRadius theTilingRadius
      theCullingHyperplanes aSpaceType)
    ⟨[], [], 0, 0, 0⟩

/-- The comparison `CompareCellCenterDistances` from
`CurvedSpacesDirichlet.c` induces on cells: ascending camera-space
distance. -/
def cellCenterDistanceLE (c1 c2 : Honeycell) : Bool :=
  c1.distanceCameraToCellCenter ≤ c2.distanceCameraToCellCenter

/-- The geometry-adjusted Dirichlet-domain radius computed at the top of
`CullAndSortVisibleCells`: `sin(r)`, `r` or `sinh(r)` according to the
geometry.  (For `SpaceNone` the C code aborts the process; that
unreachable case is mapped to `0`.) -/
def adjustedDirichletDomainRadius (ops : AnalyticOps) (aDirichletDomainRadius : ℚ)
    (aSpaceType : SpaceType) : ℚ :=
  match aSpaceType with
  | SpaceType.spaceNone => 0
  | SpaceType.spaceSpherical => ops.sinQ aDirichletDomainRadius
  | SpaceType.spaceFlat => aDirichletDomainRadius
  | SpaceType.spaceHyperbolic => ops.sinhQ aDirichletDomainRadius

/-- The list of cells `CullAndSortVisibleCells` accepts, in the order of
the cell loop, before sorting. -/
def acceptedVisibleCells (ops : AnalyticOps) (aHoneycomb : Honeycomb)
    (aViewMatrix : Matrix) (anImageWidth anImageHeight : ℚ)
    (aHorizonRadius aDirichletDomainRadius : ℚ) (aSpaceType : SpaceType) :
    List Honeycell :=
  (cullPass ops aHoneycomb.cells aViewMatrix
    (adjustedDirichletDomainRadius ops aDirichletDomainRadius aSpaceType)
    (aHorizonRadius + aDirichletDomainRadius)
    (makeCullingHyperplanes ops anImageWidth anImageHeight) aSpaceType).visible

/-- `CullAndSortVisibleCells` from `CurvedSpacesDirichlet.c` (the
non-NULL honeycomb branch): compute the tiling radius and the
geometry-adjusted domain radius, cull every cell against the camera
hemisphere, the tiling radius and the view frustum, count plain and
reflected survivors, and sort the visible cells by increasing distance
from the observer.  The libc `qsort` with `CompareCellCenterDistances`
is modelled as a comparison sort (`List.mergeSort`) with the same
ascending-distance order.  (For `SpaceNone` the C code aborts the
process; the adjusted radius is set to `0` in that unreachable case.) -/
def cullAndSortVisibleCells (ops : AnalyticOps) (aHoneycomb : Honeycomb)
    (aViewMatrix : Matrix) (anImageWidth anImageHeight : ℚ)
    (aHorizonRadius aDirichletDomainRadius : ℚ) (aSpaceType : SpaceType) :
    Honeycomb :=
  let theTilingRadius := aHorizonRadius + aDirichletDomainRadius
  let theAdjustedDirichletDomainRadius :=
    adjustedDirichletDomainRadius ops aDirichletDomainRadius aSpaceType
  let theCullingHyperplanes := makeCullingHyperplanes ops anImageWidth anImageHeight
  let st := cullPass ops aHoneycomb.cells aViewMatrix
    theAdjustedDirichletDomainRadius theTilingRadius theCullingHyperplanes aSpaceType
  { cells := st.cells
    numVisibleCells := st.numVisible
    numVisiblePlainCells := st.numPlain
    numVisibleReflectedCells := st.numReflected
    visibleCells := st.visible.mergeSort cellCenterDistanceLE }

end CurvedSpaces

namespace CurvedSpaces

/-! ### Concrete instances used by witnesses -/

/-- A concrete instantiation of the external transcendental operations,
used only to evaluate witnesses on concrete inputs.  (`sqrtQ` returns 1
so that normalizations keep vectors nonzero.) -/
def sampleOps : AnalyticOps :=
  { sqrtQ := fun _ => 1
    sinQ := fun _ => 0
    cosQ := fun _ => 1
    sinhQ := fun _ => 0
    coshQ := fun _ => 1
    atan2Q := fun _ _ => 0
    geometricDistance := fun v => v.z
    geometricDistance2 := fun _ _ => 1
    hslaToRGBA := fun _ => default }

/-- A concrete one-face Dirichlet domain used by witnesses: the single
face carries the halfspace `z - 1/2 ≤ 0` of the unit translation in z. -/
def sampleDomain : DirichletDomain :=
  { vertexList := []
    halfEdgeList := []
    faceList := [(0,
      { halfEdge := 0
        halfspace := ⟨0, 0, 1, -(1 / 2)⟩
        matrix := { matrixIdentity with row3 := ⟨0, 0, 1, 1⟩ }
        colorIndex := 0
        colorRGBA := default
        colorGreyscale := 0
        rawCenter := default
        normalizedCenter := default
        deletionFlag := false })]
    spaceType := SpaceType.spaceFlat
    outradius := 0
    freshId := 1 }

/-- A concrete simulation state used by witnesses: observer moving at
speed 1 in the flat space of `sampleDomain`. -/
def sampleMovingState : ModelData :=
  { changeCount := 7
    spaceType := SpaceType.spaceFlat
    drawBackHemisphere := false
    threeSphereFlag := false
    horizonRadius := 1
    userBodyPlacement := matrixIdentity
    userSpeed := 1
    prePauseUserSpeed := 0
    dirichletDomain := some sampleDomain
    honeycomb := none
    aperture := 1 / 2
    dirichletWallsMeshNeedsRefresh := false
    vertexFigureMeshNeedsReplacement := false
    centerpieceType := CenterpieceType.centerpieceEarth
    rotationAngle := 1
    showObserver := true
    showColorCoding := false
    cliffordMode := CliffordMode.cliffordNone
    showVertexFigures := false
    fogFlag := true }

/-! ### Claim C3: stay-in-domain reduction is a no-op on reduced placements -/

/-- The face loop of `StayInDirichletDomain` leaves the placement
unchanged when no face value exceeds the restoring threshold. -/
theorem stayInDirichletDomainFaces_noop (p : Matrix) :
    ∀ (faces : List (ℕ × HEFace)),
      (∀ q ∈ faces, faceValueAt q.2 p ≤ restoringEpsilon) →
      stayInDirichletDomainFaces faces p = p := by
  intro faces
  induction faces with
  | nil => intro _; rfl
  | cons q rest ih =>
    intro h
    have hq : ¬ (faceValueAt q.2 p > restoringEpsilon) :=
      not_lt.mpr (h q (List.mem_cons_self _ _))
    simp only [faceValueAt] at hq
    simp only [stayInDirichletDomainFaces, List.foldl_cons] at *
    rw [if_neg hq]
    exact ih fun r hr => h r (List.mem_cons_of_mem _ hr)

/-- C3: `StayInDirichletDomain` is idempotent on reduced placements.
For every Dirichlet domain (including the NULL domain) and every
placement matrix whose basepoint image gives a halfspace value of at
most the restoring threshold `RESTORING_EPSILON = 1e-8` on every face,
the call leaves the placement matrix unchanged. -/
theorem stayInDirichletDomain_noop_on_reduced
    (aDirichletDomain : Option DirichletDomain) (aPlacement : Matrix)
    (h : ∀ d ∈ aDirichletDomain, ∀ q ∈ d.faceList,
      faceValueAt q.2 aPlacement ≤ restoringEpsilon) :
    stayInDirichletDomain aDirichletDomain aPlacement = aPlacement := by
  cases aDirichletDomain with
  | none => rfl
  | some d =>
    exact stayInDirichletDomainFaces_noop aPlacement d.faceList
      (h d (by rfl))

/-- Witness for C3: the identity placement is reduced for the sample
domain (face value `-1/2 ≤ 1e-8`), and the reduction leaves it unchanged. -/
theorem stayInDirichletDomain_noop_on_reduced_witness :
    (∀ d ∈ some sampleDomain, ∀ q ∈ d.faceList,
      faceValueAt q.2 matrixIdentity ≤ restoringEpsilon)
    ∧ stayInDirichletDomain (some sampleDomain) matrixIdentity = matrixIdentity := by
  have hred : ∀ d ∈ some sampleDomain, ∀ q ∈ d.faceList,
      faceValueAt q.2 matrixIdentity ≤ restoringEpsilon := by
    intro d hd q hq
    rcases Option.mem_some_iff.mp hd with rfl
    rcases List.mem_singleton.mp hq with rfl
    norm_num [faceValueAt, sampleDomain, restoringEpsilon, matrixIdentity]
  exact ⟨hred,
    stayInDirichletDomain_noop_on_reduced (some sampleDomain) matrixIdentity hred⟩

end CurvedSpaces

namespace CurvedSpaces

/-- A concrete two-cell honeycomb used by witnesses. -/
def sampleHoneycomb : Honeycomb :=
  { cells :=
      [ { matrix := matrixIdentity
          cellCenterInWorldSpace := ⟨0, 0, 0, 1⟩
          distanceCameraToCellCenter := 0 },
        { matrix := { matrixIdentity with row3 := ⟨0, 0, 1, 1⟩, parity := ImageParity.imageNegative }
          cellCenterInWorldSpace := ⟨0, 0, 1, 1⟩
          distanceCameraToCellCenter := 0 } ]
    numVisibleCells := 0
    numVisiblePlainCells := 0
    numVisibleReflectedCells := 0
    visibleCells := [] }

/-! ### Claim C5: plain cells plus reflected cells equal visible cells -/

/-- One step of the cell loop preserves the counter identity
`numPlain + numReflected = numVisible`. -/
theorem cullStep_preserves_counts (ops : AnalyticOps) (aViewMatrix : Matrix)
    (adj til : ℚ) (planes : Vector × Vector × Vector × Vector)
    (aSpaceType : SpaceType) (acc : CullAccumulator) (cell : Honeycell)
    (h : acc.numPlain + acc.numReflected = acc.numVisible) :
    (cullStep ops aViewMatrix adj til planes aSpaceType acc cell).numPlain
    + (cullStep ops aViewMatrix adj til planes aSpaceType acc cell).numReflected
    = (cullStep ops aViewMatrix adj til planes aSpaceType acc cell).numVisible := by
  unfold cullStep
  dsimp only
  split
  · dsimp only
    split
    · omega
    · omega
  · exact h

/-- The whole cell loop preserves the counter identity. -/
theorem cullPass_counts (ops : AnalyticOps) (aViewMatrix : Matrix)
    (adj til : ℚ) (planes : Vector × Vector × Vector × Vector)
    (aSpaceType : SpaceType) :
    ∀ (cells : List Honeycell) (acc : CullAccumulator),
      acc.numPlain + acc.numReflected = acc.numVisible →
      (cells.foldl (cullStep ops aViewMatrix adj til planes aSpaceType) acc).numPlain
      + (cells.foldl (cullStep ops aViewMatrix adj til planes aSpaceType) acc).numReflected
      = (cells.foldl (cullStep ops aViewMatrix adj til planes aSpaceType) acc).numVisible := by
  intro cells
  induction cells with
  | nil => intro acc h; exact h
  | cons c rest ih =>
    intro acc h
    simp only [List.foldl_cons]
    exact ih _ (cullStep_preserves_counts ops aViewMatrix adj til planes aSpaceType acc c h)

/-- C5: after every call to `CullAndSortVisibleCells` on a (non-null)
honeycomb in a loaded space, the count of visible plain cells plus the
count of visible reflected cells equals the total count of visible
cells.  (`SpaceNone` is excluded because the C code aborts on it.) -/
theorem cullAndSortVisibleCells_parity_partition (ops : AnalyticOps)
    (aHoneycomb : Honeycomb) (aViewMatrix : Matrix)
    (anImageWidth anImageHeight aHorizonRadius aDirichletDomainRadius : ℚ)
    (aSpaceType : SpaceType) (hspace : aSpaceType ≠ SpaceType.spaceNone) :
    (cullAndSortVisibleCells ops aHoneycomb aViewMatrix anImageWidth anImageHeight
      aHorizonRadius aDirichletDomainRadius aSpaceType).numVisiblePlainCells
    + (cullAndSortVisibleCells ops aHoneycomb aViewMatrix anImageWidth anImageHeight
      aHorizonRadius aDirichletDomainRadius aSpaceType).numVisibleReflectedCells
    = (cullAndSortVisibleCells ops aHoneycomb aViewMatrix anImageWidth anImageHeight
      aHorizonRadius aDirichletDomainRadius aSpaceType).numVisibleCells := by
  unfold cullAndSortVisibleCells cullPass
  exact cullPass_counts _ _ _ _ _ _ aHoneycomb.cells ⟨[], [], 0, 0, 0⟩ rfl

/-- Witness for C5 at a concrete flat two-cell honeycomb. -/
theorem cullAndSortVisibleCells_parity_partition_witness :
    SpaceType.spaceFlat ≠ SpaceType.spaceNone
    ∧ (cullAndSortVisibleCells sampleOps sampleHoneycomb matrixIdentity 2 1 1 1
        SpaceType.spaceFlat).numVisiblePlainCells
      + (cullAndSortVisibleCells sampleOps sampleHoneycomb matrixIdentity 2 1 1 1
        SpaceType.spaceFlat).numVisibleReflectedCells
      = (cullAndSortVisibleCells sampleOps sampleHoneycomb matrixIdentity 2 1 1 1
        SpaceType.spaceFlat).numVisibleCells :=
  ⟨by decide,
   cullAndSortVisibleCells_parity_partition sampleOps sampleHoneycomb matrixIdentity
     2 1 1 1 SpaceType.spaceFlat (by decide)⟩

/-! ### Claim C6: visible cells are sorted by camera-space distance -/

/-- C6: after every call to `CullAndSortVisibleCells` on a (non-null)
honeycomb in a loaded space, `itsVisibleCells` holds exactly the
accepted cells (up to order) and is sorted by nondecreasing camera-space
distance `itsDistanceCameraToCellCenter`; the libc `qsort` with
`CompareCellCenterDistances` is modelled as a comparison sort with the
same ascending-distance order, ties broken arbitrarily. -/
theorem cullAndSortVisibleCells_sorted_by_distance (ops : AnalyticOps)
    (aHoneycomb : Honeycomb) (aViewMatrix : Matrix)
    (anImageWidth anImageHeight aHorizonRadius aDirichletDomainRadius : ℚ)
    (aSpaceType : SpaceType) (hspace : aSpaceType ≠ SpaceType.spaceNone) :
    ((cullAndSortVisibleCells ops aHoneycomb aViewMatrix anImageWidth anImageHeight
        aHorizonRadius aDirichletDomainRadius aSpaceType).visibleCells).Perm
      (acceptedVisibleCells ops aHoneycomb aViewMatrix anImageWidth anImageHeight
        aHorizonRadius aDirichletDomainRadius aSpaceType)
    ∧ List.Pairwise
        (fun c1 c2 => c1.distanceCameraToCellCenter ≤ c2.distanceCameraToCellCenter)
        ((cullAndSortVisibleCells ops aHoneycomb aViewMatrix anImageWidth anImageHeight
          aHorizonRadius aDirichletDomainRadius aSpaceType).visibleCells) := by
  constructor
  · show ((acceptedVisibleCells ops aHoneycomb aViewMatrix anImageWidth anImageHeight
        aHorizonRadius aDirichletDomainRadius aSpaceType).mergeSort
          cellCenterDistanceLE).Perm _
    exact List.mergeSort_perm _ _
  · show List.Pairwise _
      ((acceptedVisibleCells ops aHoneycomb aViewMatrix anImageWidth anImageHeight
        aHorizonRadius aDirichletDomainRadius aSpaceType).mergeSort cellCenterDistanceLE)
    have hsorted := @List.sorted_mergeSort _ cellCenterDistanceLE
      (fun a b c h1 h2 => by
        simp only [cellCenterDistanceLE, decide_eq_true_eq] at *
        exact le_trans h1 h2)
      (fun a b => by
        simp only [cellCenterDistanceLE, Bool.or_eq_true, decide_eq_true_eq]
        exact le_total _ _)
      (acceptedVisibleCells ops aHoneycomb aViewMatrix anImageWidth anImageHeight
        aHorizonRadius aDirichletDomainRadius aSpaceType)
    exact hsorted.imp fun h => by
      simpa only [cellCenterDistanceLE, decide_eq_true_eq] using h

/-- Witness for C6 at a concrete flat two-cell honeycomb. -/
theorem cullAndSortVisibleCells_sorted_by_distance_witness :
    SpaceType.spaceFlat ≠ SpaceType.spaceNone
    ∧ (((cullAndSortVisibleCells sampleOps sampleHoneycomb matrixIdentity 2 1 1 1
        SpaceType.spaceFlat).visibleCells).Perm
      (acceptedVisibleCells sampleOps sampleHoneycomb matrixIdentity 2 1 1 1
        SpaceType.spaceFlat)
      ∧ List.Pairwise
        (fun c1 c2 => c1.distanceCameraToCellCenter ≤ c2.distanceCameraToCellCenter)
        ((cullAndSortVisibleCells sampleOps sampleHoneycomb matrixIdentity 2 1 1 1
          SpaceType.spaceFlat).visibleCells)) :=
  ⟨by decide,
   cullAndSortVisibleCells_sorted_by_distance sampleOps sampleHoneycomb matrixIdentity
     2 1 1 1 SpaceType.spaceFlat (by decide)⟩

end CurvedSpaces

namespace CurvedSpaces

/-! ### Claim C7: mutating core operations and the change counter -/

/-- The mutating core operations on the simulation state translated in
this development: the gestures (`CurvedSpacesGestures.c`), the per-frame
simulation update (`CurvedSpacesSimulation.c`) and the option setters
(`CurvedSpacesOptions.c`). -/
inductive CoreOperation where
  | opGestureRotate (anAngle : ℚ)
  | opGesturePinch (anExpansionFactor : ℚ)
  | opGestureTap
  | opSimulationUpdate (aFramePeriod : ℚ)
  | opSetCenterpiece (aCenterpieceChoice : CenterpieceType)
  | opSetShowObserver (aShowObserverChoice : Bool)
  | opSetShowColorCoding (aShowColorCodingChoice : Bool)
  | opSetShowCliffordParallels (aCliffordMode : CliffordMode)
  | opSetShowVertexFigures (aShowVertexFiguresChoice : Bool)
  | opSetFogFlag (aFogFlag : Bool)
deriving DecidableEq, Repr

/-- Dispatch a core operation to the translated C function. -/
def applyCoreOperation (ops : AnalyticOps) (op : CoreOperation) (md : ModelData) :
    ModelData :=
  match op with
  | CoreOperation.opGestureRotate anAngle => gestureRotate ops md anAngle
  | CoreOperation.opGesturePinch anExpansionFactor => gesturePinch md anExpansionFactor
  | CoreOperation.opGestureTap => gestureTap md
  | CoreOperation.opSimulationUpdate aFramePeriod => simulationUpdate ops md aFramePeriod
  | CoreOperation.opSetCenterpiece c => setCenterpiece md c
  | CoreOperation.opSetShowObserver b => setShowObserver md b
  | CoreOperation.opSetShowColorCoding b => setShowColorCoding md b
  | CoreOperation.opSetShowCliffordParallels m => setShowCliffordParallels md m
  | CoreOperation.opSetShowVertexFigures b => setShowVertexFigures md b
  | CoreOperation.opSetFogFlag b => setFogFlag md b

/-- Counterexample for C7: `GestureTap` on a moving state changes the
state (it zeroes `itsUserSpeed`) but leaves `itsChangeCount` unchanged,
exactly as the C comment says ("No need to increment
md->itsChangeCount").  So not every mutating core operation increments
the change counter. -/
theorem gestureTap_mutates_without_incrementing_changeCount :
    (applyCoreOperation sampleOps CoreOperation.opGestureTap sampleMovingState).userSpeed
      ≠ sampleMovingState.userSpeed
    ∧ (applyCoreOperation sampleOps CoreOperation.opGestureTap sampleMovingState).changeCount
      = sampleMovingState.changeCount := by
  constructor
  · norm_num [applyCoreOperation, gestureTap, sampleMovingState]
  · norm_num [applyCoreOperation, gestureTap, sampleMovingState]

/-- C7 (amended): every mutating core operation other than `GestureTap`
increments the change counter by exactly one (hence strictly increases
it), and `GestureTap` leaves the counter unchanged. -/
theorem coreOperation_changeCount (ops : AnalyticOps) (op : CoreOperation)
    (md : ModelData) :
    (op ≠ CoreOperation.opGestureTap →
      (applyCoreOperation ops op md).changeCount = md.changeCount + 1)
    ∧ (applyCoreOperation ops CoreOperation.opGestureTap md).changeCount
      = md.changeCount := by
  constructor
  · intro h
    cases op with
    | opGestureTap => exact absurd rfl h
    | opGestureRotate anAngle => rfl
    | opGesturePinch anExpansionFactor => rfl
    | opSimulationUpdate aFramePeriod =>
        simp only [applyCoreOperation, simulationUpdate, updateUserPlacement,
          updateCenterpieceRotation]
    | opSetCenterpiece c => rfl
    | opSetShowObserver b => rfl
    | opSetShowColorCoding b => rfl
    | opSetShowCliffordParallels m => rfl
    | opSetShowVertexFigures b => rfl
    | opSetFogFlag b => rfl
  · simp only [applyCoreOperation, gestureTap]
    split <;> rfl

/-- Witness for C7 (amended) at a concrete operation and state. -/
theorem coreOperation_changeCount_witness :
    CoreOperation.opSetFogFlag false ≠ CoreOperation.opGestureTap
    ∧ (applyCoreOperation sampleOps (CoreOperation.opSetFogFlag false)
        sampleMovingState).changeCount = sampleMovingState.changeCount + 1 :=
  ⟨by simp,
   (coreOperation_changeCount sampleOps (CoreOperation.opSetFogFlag false)
     sampleMovingState).1 (by simp)⟩

/-! ### Claim C8: the tap gesture toggles between moving and paused -/

/-- C8: `GestureTap` toggles the observer between the moving and paused
states while remembering the pre-pause speed: from a moving state one
tap stops the motion and records the old speed, and a second tap
restores it; from a paused state a tap restores the remembered speed and
clears it.  The toggle is independent of the geometry: it commutes with
replacing the state's space type. -/
theorem gestureTap_toggles_motion (md : ModelData) :
    (md.userSpeed ≠ 0 →
      (gestureTap md).userSpeed = 0
      ∧ (gestureTap md).prePauseUserSpeed = md.userSpeed
      ∧ (gestureTap (gestureTap md)).userSpeed = md.userSpeed
      ∧ (gestureTap (gestureTap md)).prePauseUserSpeed = 0)
    ∧ (md.userSpeed = 0 →
      (gestureTap md).userSpeed = md.prePauseUserSpeed
      ∧ (gestureTap md).prePauseUserSpeed = 0)
    ∧ (∀ s, gestureTap { md with spaceType := s }
        = { gestureTap md with spaceType := s }) := by
  refine ⟨fun h => ?_, fun h => ?_, fun s => ?_⟩
  · simp [gestureTap, h]
  · simp [gestureTap, h]
  · by_cases h : md.userSpeed ≠ 0
    · simp [gestureTap, h]
    · simp only [ne_eq, not_not] at h
      simp [gestureTap, h]

/-- Witness for C8: two taps from a concrete moving state restore the
original speed. -/
theorem gestureTap_toggles_motion_witness :
    sampleMovingState.userSpeed ≠ 0
    ∧ ((gestureTap sampleMovingState).userSpeed = 0
      ∧ (gestureTap sampleMovingState).prePauseUserSpeed = sampleMovingState.userSpeed
      ∧ (gestureTap (gestureTap sampleMovingState)).userSpeed = sampleMovingState.userSpeed
      ∧ (gestureTap (gestureTap sampleMovingState)).prePauseUserSpeed = 0) := by
  have h : sampleMovingState.userSpeed ≠ 0 := by norm_num [sampleMovingState]
  exact ⟨h, (gestureTap_toggles_motion sampleMovingState).1 h⟩

/-! ### Claim C9: the frame period is clamped to 0.1 -/

/-- C9: `SimulationUpdate` clamps the per-frame elapsed time to the
upper bound `MAX_FRAME_PERIOD = 0.1`: for every state and every frame
period greater than 0.1, the resulting state is exactly the state
produced by a frame period of 0.1. -/
theorem simulationUpdate_clamps_frame_period (ops : AnalyticOps) (md : ModelData)
    (aFramePeriod : ℚ) (h : aFramePeriod > (0.1 : ℚ)) :
    simulationUpdate ops md aFramePeriod = simulationUpdate ops md (0.1 : ℚ) := by
  have h1 : aFramePeriod > maxFramePeriod := h
  have h2 : ¬ ((0.1 : ℚ) > maxFramePeriod) := by
    norm_num [maxFramePeriod]
  unfold simulationUpdate
  rw [if_pos h1, if_neg h2]
  rfl

/-- Witness for C9 at a concrete state and frame period 1. -/
theorem simulationUpdate_clamps_frame_period_witness :
    (1 : ℚ) > (0.1 : ℚ)
    ∧ simulationUpdate sampleOps sampleMovingState 1
      = simulationUpdate sampleOps sampleMovingState (0.1 : ℚ) :=
  ⟨by norm_num,
   simulationUpdate_clamps_frame_period sampleOps sampleMovingState 1 (by norm_num)⟩

end CurvedSpaces

namespace CurvedSpaces

/-! ### Halfspace intersection (`CurvedSpacesDirichlet.c`)

`IntersectWithHalfspace` destructively cuts the polyhedron with the
halfspace of a group matrix.  Fields the C code leaves uninitialized in
freshly allocated records are set to `default`; loops that walk a face
cycle or a vertex star carry a fuel bound of one more than the half-edge
count (on a well-formed mesh the C do-while loops traverse each cycle
exactly once; on a corrupt mesh they would not terminate). -/

/-- `MakeHalfspaceInequality` from `CurvedSpacesDirichlet.c`: the
halfspace `ax + by + cz + dw ≤ 0` lying midway between the basepoint
`(0,0,0,1)` and its image under the matrix (the matrix's last row),
adjusted per geometry as inferred from the `(3,3)` entry. -/
def makeHalfspaceInequality (aMatrix : Matrix) : Vector :=
  let anInequality : Vector :=
    ⟨aMatrix.row3.x, aMatrix.row3.y, aMatrix.row3.z, aMatrix.row3.w - 1⟩
  if aMatrix.row3.w < 1 then
    -- spherical case: no adjustment needed
    anInequality
  else if aMatrix.row3.w = 1 then
    -- flat case
    let theLengthSquared := vectorDotProduct anInequality anInequality
    ⟨anInequality.x, anInequality.y, anInequality.z, -(1 / 2) * theLengthSquared⟩
  else
    -- hyperbolic case: mimic Minkowski metric
    ⟨anInequality.x, anInequality.y, anInequality.z, -anInequality.w⟩

/-- The vertex classification of `IntersectWithHalfspace`:
strictly inside, on the boundary, or strictly outside the halfspace,
with tolerance `VERTEX_HALFSPACE_EPSILON`. -/
def vertexVsHalfspaceStatus (theDotProduct : ℚ) : VertexVsHalfspace :=
  if theDotProduct < -vertexHalfspaceEpsilon then
    VertexVsHalfspace.vertexInsideHalfspace
  else if theDotProduct > vertexHalfspaceEpsilon then
    VertexVsHalfspace.vertexOutsideHalfspace
  else
    VertexVsHalfspace.vertexOnBoundary

/-- The status loop of `IntersectWithHalfspace`: evaluate the halfspace
equation on every vertex's raw position and store the classification. -/
def intersectClassifyVertices (p : HEPolyhedron) (theHalfspace : Vector) :
    HEPolyhedron :=
  { p with
      vertexList := p.vertexList.map fun q =>
        (q.1, { q.2 with halfspaceStatus :=
          vertexVsHalfspaceStatus (vectorDotProduct theHalfspace q.2.rawPosition) }) }

/-- `theCutIsNontrivial`: some vertex lies strictly outside. -/
def cutIsNontrivial (p : HEPolyhedron) : Bool :=
  p.vertexList.any fun q =>
    q.2.halfspaceStatus = VertexVsHalfspace.vertexOutsideHalfspace

/-- Walk a face cycle starting from half edge `start`, with fuel. -/
def faceCycleAux (p : HEPolyhedron) (start : ℕ) : ℕ → ℕ → List ℕ
  | 0, _ => []
  | Nat.succ fuel, e =>
      e :: (if (p.edge e).cycle = start then []
            else faceCycleAux p start fuel (p.edge e).cycle)

/-- The list of half edges of the face cycle through `start`, in the
order the C do-while loops visit them. -/
def faceCycle (p : HEPolyhedron) (start : ℕ) : List ℕ :=
  faceCycleAux p start (p.halfEdgeList.length + 1) start

/-- The edge-splitting step of `IntersectWithHalfspace` for the half
edge `e1`: if `e1`'s tip is strictly inside and its mate's tip strictly
outside, insert a new boundary vertex at the cut point (the ternary
cross product of the two adjacent faces' halfspaces with the cutting
halfspace) and split the half-edge pair into four half edges. -/
def splitEdgeAt (theHalfspace : Vector) (p : HEPolyhedron) (e1 : ℕ) : HEPolyhedron :=
  let ed1 := p.edge e1
  let e2 := ed1.mate
  let ed2 := p.edge e2
  let theVertex1 := ed1.tip
  let theVertex2 := ed2.tip
  if (p.vert theVertex1).halfspaceStatus = VertexVsHalfspace.vertexInsideHalfspace
     ∧ (p.vert theVertex2).halfspaceStatus = VertexVsHalfspace.vertexOutsideHalfspace then
    let nv := p.freshId
    let e1a := p.freshId + 1
    let e2a := p.freshId + 2
    let theNewVertex : HEVertex :=
      { rawPosition := vectorTernaryCrossProduct
          (p.face ed1.face).halfspace (p.face ed2.face).halfspace theHalfspace
        normalizedPosition := default
        outboundHalfEdge := e1a
        halfspaceStatus := VertexVsHalfspace.vertexOnBoundary
        centerPoint := default }
    let theHalfEdge1a : HEHalfEdge :=
      { (default : HEHalfEdge) with
          tip := theVertex1, mate := e2, cycle := ed1.cycle, face := ed1.face }
    let theHalfEdge2a : HEHalfEdge :=
      { (default : HEHalfEdge) with
          tip := theVertex2, mate := e1, cycle := ed2.cycle, face := ed2.face }
    let p1 := p.setEdge e1 fun d => { d with tip := nv, mate := e2a, cycle := e1a }
    let p2 := p1.setEdge e2 fun d => { d with tip := nv, mate := e1a, cycle := e2a }
    { p2 with
        vertexList := (nv, theNewVertex) :: p2.vertexList
        halfEdgeList := (e2a, theHalfEdge2a) :: (e1a, theHalfEdge1a) :: p2.halfEdgeList
        freshId := p2.freshId + 3 }
  else
    p

/-- The edge-splitting loop: the C code iterates over the half-edge
list as it stood when the loop began (new half edges are prepended at
the list head, behind the iterator). -/
def splitEdges (theHalfspace : Vector) (p : HEPolyhedron) : HEPolyhedron :=
  (p.halfEdgeList.map Prod.fst).foldl (splitEdgeAt theHalfspace) p

/-- The face-splitting step of `IntersectWithHalfspace` for face `f`:
find the last half edge of the cycle about to leave the halfspace
(`theGoingOutEdge`) and the last about to re-enter it
(`theGoingInEdge`); if both exist, join the two new boundary vertices by
a fresh half-edge pair, splitting the face into an inner remainder and
an outer piece with a fresh face record. -/
def splitFaceAt (p : HEPolyhedron) (f : ℕ) : HEPolyhedron :=
  let cyc := faceCycle p (p.face f).halfEdge
  let theGoingOutEdge := cyc.foldl
    (fun acc e =>
      if (p.vert (p.edge e).tip).halfspaceStatus = VertexVsHalfspace.vertexOnBoundary
         ∧ (p.vert (p.edge (p.edge e).cycle).tip).halfspaceStatus
            = VertexVsHalfspace.vertexOutsideHalfspace
      then some e else acc)
    none
  let theGoingInEdge := cyc.foldl
    (fun acc e =>
      if (p.vert (p.edge e).tip).halfspaceStatus = VertexVsHalfspace.vertexOnBoundary
         ∧ (p.vert (p.edge (p.edge e).cycle).tip).halfspaceStatus
            = VertexVsHalfspace.vertexInsideHalfspace
      then some e else acc)
    none
  match theGoingOutEdge, theGoingInEdge with
  | some go, some gi =>
      let inner := p.freshId
      let outer := p.freshId + 1
      let outerFace := p.freshId + 2
      let theInnerHalfEdge : HEHalfEdge :=
        { (default : HEHalfEdge) with
            tip := (p.edge gi).tip, mate := outer, cycle := (p.edge gi).cycle, face := f }
      let theOuterHalfEdge : HEHalfEdge :=
        { (default : HEHalfEdge) with
            tip := (p.edge go).tip, mate := inner, cycle := (p.edge go).cycle }
      let p1 :=
        { p with
            halfEdgeList := (outer, theOuterHalfEdge) :: (inner, theInnerHalfEdge)
              :: p.halfEdgeList
            faceList := (outerFace, (default : HEFace)) :: p.faceList
            freshId := p.freshId + 3 }
      let p2 := p1.setEdge go fun d => { d with cycle := inner }
      let p3 := p2.setEdge gi fun d => { d with cycle := outer }
      let p4 := p3.setFace f fun d => { d with halfEdge := inner }
      -- "Set the outer face": walk the (rewired) outer cycle
      let p5 := (faceCycle p4 outer).foldl
        (fun q e => q.setEdge e fun d => { d with face := outerFace }) p4
      p5.setFace outerFace fun d => { d with halfEdge := outer }
  | _, _ => p

/-- The face-splitting loop over the face list as it stood when the
loop began (new outer faces are prepended behind the iterator). -/
def splitFaces (p : HEPolyhedron) : HEPolyhedron :=
  (p.faceList.map Prod.fst).foldl splitFaceAt p

/-- First deletion-flag loop: clear every face's deletion flag. -/
def clearFaceDeletionFlags (p : HEPolyhedron) : HEPolyhedron :=
  { p with faceList := p.faceList.map fun q => (q.1, { q.2 with deletionFlag := false }) }

/-- Second deletion-flag loop: flag every half edge incident to a
strictly-outside vertex, and with it the face it borders; clear the flag
on every other half edge. -/
def setDeletionFlags (p : HEPolyhedron) : HEPolyhedron :=
  (p.halfEdgeList.map Prod.fst).foldl
    (fun q e =>
      if (q.vert (q.edge e).tip).halfspaceStatus = VertexVsHalfspace.vertexOutsideHalfspace
         ∨ (q.vert (q.edge (q.edge e).mate).tip).halfspaceStatus
            = VertexVsHalfspace.vertexOutsideHalfspace then
        (q.setEdge e fun d => { d with deletionFlag := true }).setFace (q.edge e).face
          (fun d => { d with deletionFlag := true })
      else
        q.setEdge e fun d => { d with deletionFlag := false })
    p

/-- The while loop that advances a vertex's outbound half edge past
half edges marked for deletion (`outbound := outbound.mate.cycle`). -/
def advanceOutboundAux (p : HEPolyhedron) : ℕ → ℕ → ℕ
  | 0, e => e
  | Nat.succ fuel, e =>
      if (p.edge e).deletionFlag then
        advanceOutboundAux p fuel (p.edge (p.edge e).mate).cycle
      else e

/-- "Make sure all surviving vertices see a surviving half edge." -/
def fixSurvivingOutbounds (p : HEPolyhedron) : HEPolyhedron :=
  (p.vertexList.map Prod.fst).foldl
    (fun q v =>
      if (q.vert v).halfspaceStatus ≠ VertexVsHalfspace.vertexOutsideHalfspace then
        q.setVert v fun d =>
          { d with outboundHalfEdge :=
              advanceOutboundAux q (q.halfEdgeList.length + 1) d.outboundHalfEdge }
      else q)
    p

/-- The while loop that advances a cycle pointer past half edges marked
for deletion (`cycle := cycle.mate.cycle`). -/
def skipDeletedCycleAux (p : HEPolyhedron) : ℕ → ℕ → ℕ
  | 0, c => c
  | Nat.succ fuel, c =>
      if (p.edge c).deletionFlag then
        skipDeletedCycleAux p fuel (p.edge (p.edge c).mate).cycle
      else c

/-- "Install the new face": every surviving half edge whose face is
marked for deletion joins the new face `nf` (which records it as its
half edge), and its cycle pointer is advanced past deleted half edges. -/
def installNewFaceStep (nf : ℕ) (q : HEPolyhedron) (e : ℕ) : HEPolyhedron :=
  if (q.edge e).deletionFlag = false
     ∧ (q.face (q.edge e).face).deletionFlag = true then
    let q1 := q.setEdge e fun d => { d with face := nf }
    let q2 := q1.setFace nf fun d => { d with halfEdge := e }
    let c := skipDeletedCycleAux q2 (q2.halfEdgeList.length + 1) (q2.edge e).cycle
    q2.setEdge e fun d => { d with cycle := c }
  else q

/-- The install loop over the whole half-edge list. -/
def installNewFace (nf : ℕ) (p : HEPolyhedron) : HEPolyhedron :=
  (p.halfEdgeList.map Prod.fst).foldl (installNewFaceStep nf) p

/-- "Delete excluded vertices, half edges and faces." -/
def deleteFlaggedRecords (p : HEPolyhedron) : HEPolyhedron :=
  { p with
      vertexList := p.vertexList.filter fun q =>
        decide (q.2.halfspaceStatus ≠ VertexVsHalfspace.vertexOutsideHalfspace)
      halfEdgeList := p.halfEdgeList.filter fun q => !q.2.deletionFlag
      faceList := p.faceList.filter fun q => !q.2.deletionFlag }

/-- `IntersectWithHalfspace` from `CurvedSpacesDirichlet.c`: intersect
the polyhedron with the halfspace defined by `aMatrix`.  The identity
matrix is ignored before any halfspace is computed ("Nothing to do, but
not an error"); a cut that leaves no vertex strictly outside is a no-op
beyond the temporary status fields.  Memory-allocation failure, the only
error path of the C function, is not modelled, so the embedding always
returns success. -/
def intersectWithHalfspace (aDirichletDomain : HEPolyhedron) (aMatrix : Matrix) :
    Except String HEPolyhedron :=
  if matrixIsIdentity aMatrix then
    Except.ok aDirichletDomain
  else
    let theHalfspace := makeHalfspaceInequality aMatrix
    let p0 := intersectClassifyVertices aDirichletDomain theHalfspace
    if cutIsNontrivial p0 = false then
      Except.ok p0
    else
      let p1 := splitEdges theHalfspace p0
      let p2 := splitFaces p1
      let theNewFace := p2.freshId
      let p3 :=
        { p2 with
            faceList := (theNewFace, (default : HEFace)) :: p2.faceList
            freshId := p2.freshId + 1 }
      let p4 := clearFaceDeletionFlags p3
      let p5 := setDeletionFlags p4
      let p6 := fixSurvivingOutbounds p5
      let p7 := installNewFace theNewFace p6
      let p8 := p7.setFace theNewFace fun d =>
        { d with halfspace := theHalfspace, matrix := aMatrix }
      Except.ok (deleteFlaggedRecords p8)

/-! ### Claim C10: the identity matrix is a frame-preserving no-op -/

/-- C10: for every Dirichlet domain in any intermediate or final state,
calling `IntersectWithHalfspace` with the identity matrix returns
success and leaves the domain's vertex, half-edge and face collections
and all their fields completely unchanged: the cut is skipped before any
halfspace is computed. -/
theorem intersectWithHalfspace_identity_noop (aDirichletDomain : HEPolyhedron) :
    intersectWithHalfspace aDirichletDomain matrixIdentity
      = Except.ok aDirichletDomain := by
  simp [intersectWithHalfspace, matrixIsIdentity, matrixIdentity]

end CurvedSpaces

namespace CurvedSpaces

/-! ### Seed polyhedra (`CurvedSpacesDirichlet.c`)

`MakeBanana` and `MakeLens` build the initial polyhedra.  Record ids
follow the C allocation order; the association lists reproduce the C
linked-list order (records are prepended as allocated).  The only C
error paths besides the explicit geometry errors are memory-allocation
failures, which are not modelled. -/

/-- `MakeBanana` from `CurvedSpacesDirichlet.c`: the 3-faced wedge
("banana") cut out by three independent halfspaces — two antipodal
vertices (ids 0, 1), three half-edge pairs (ids `2 + 2*i + j` for face
`i` and source vertex `j`), three faces (ids 8, 9, 10).  Vertex 0 is the
ternary cross product of the three halfspaces, vertex 1 its negation. -/
def makeBanana (aMatrixA aMatrixB aMatrixC : Matrix) : HEPolyhedron :=
  let hs0 := makeHalfspaceInequality aMatrixA
  let hs1 := makeHalfspaceInequality aMatrixB
  let hs2 := makeHalfspaceInequality aMatrixC
  let v0 : HEVertex :=
    { rawPosition := vectorTernaryCrossProduct hs0 hs1 hs2
      normalizedPosition := default
      outboundHalfEdge := 2
      halfspaceStatus := default
      centerPoint := default }
  let v1 : HEVertex :=
    { rawPosition := vectorNegate (vectorTernaryCrossProduct hs0 hs1 hs2)
      normalizedPosition := default
      outboundHalfEdge := 3
      halfspaceStatus := default
      centerPoint := default }
  let he : ℕ → ℕ → ℕ := fun i j => 2 + 2 * i + j
  let mkEdge : ℕ → ℕ → HEHalfEdge := fun i j =>
    { (default : HEHalfEdge) with
        tip := 1 - j
        mate := he ((i + 1 + j) % 3) (1 - j)
        cycle := he i (1 - j)
        face := 8 + i }
  let mkFace : ℕ → Matrix → Vector → (ℕ × HEFace) := fun i m hs =>
    (8 + i, { (default : HEFace) with halfEdge := he i 0, matrix := m, halfspace := hs })
  { vertexList := [(1, v1), (0, v0)]
    halfEdgeList :=
      [(he 2 1, mkEdge 2 1), (he 2 0, mkEdge 2 0),
       (he 1 1, mkEdge 1 1), (he 1 0, mkEdge 1 0),
       (he 0 1, mkEdge 0 1), (he 0 0, mkEdge 0 0)]
    faceList := [mkFace 2 aMatrixC hs2, mkFace 1 aMatrixB hs1, mkFace 0 aMatrixA hs0]
    spaceType := SpaceType.spaceNone
    outradius := 0
    freshId := 11 }

/-- The lens/slab polyhedron body built by `MakeLens` once the order `n`
is known: `n` vertices (ids `0 … n-1`) on the circle
`{x² + y² = 1, z = w = 0}`, `n` half-edge pairs (ids `n + 2*i + j`), and
two faces (ids `3*n`, `3*n + 1`). -/
def buildLens (ops : AnalyticOps) (n : ℕ) (aMatrixA aMatrixB : Matrix) : HEPolyhedron :=
  let he : ℕ → ℕ → ℕ := fun i j => n + 2 * i + j
  let mkVertex : ℕ → (ℕ × HEVertex) := fun i =>
    (i, { rawPosition :=
            ⟨ops.cosQ ((i : ℚ) * 2 * piQ / (n : ℚ)),
             ops.sinQ ((i : ℚ) * 2 * piQ / (n : ℚ)), 0, 0⟩
          normalizedPosition := default
          outboundHalfEdge := he i 0
          halfspaceStatus := default
          centerPoint := default })
  let mkEdge0 : ℕ → (ℕ × HEHalfEdge) := fun i =>
    (he i 0, { (default : HEHalfEdge) with
        tip := (i + 1) % n
        mate := he i 1
        cycle := he ((i + 1) % n) 0
        face := 3 * n })
  let mkEdge1 : ℕ → (ℕ × HEHalfEdge) := fun i =>
    (he i 1, { (default : HEHalfEdge) with
        tip := i
        mate := he i 0
        cycle := he ((i + n - 1) % n) 1
        face := 3 * n + 1 })
  { vertexList := (List.range n).reverse.map mkVertex
    halfEdgeList := (List.range n).reverse.flatMap fun i => [mkEdge1 i, mkEdge0 i]
    faceList :=
      [(3 * n + 1, { (default : HEFace) with
          halfEdge := he 0 1
          halfspace := makeHalfspaceInequality aMatrixB
          matrix := aMatrixB }),
       (3 * n, { (default : HEFace) with
          halfEdge := he 0 0
          halfspace := makeHalfspaceInequality aMatrixA
          matrix := aMatrixA })]
    spaceType := SpaceType.spaceNone
    outradius := 0
    freshId := 3 * n + 2 }

/-- `MakeLens` from `CurvedSpacesDirichlet.c`: determine the number of
circle segments `n` — 4 in the flat slab case, the rotational order of
the zw-rotation in the spherical lens case (requiring the matrix to be
block diagonal), and an error for hyperbolic slabs — then build the
two-faced lens. -/
def makeLens (ops : AnalyticOps) (aMatrixA aMatrixB : Matrix) :
    Except String HEPolyhedron :=
  if aMatrixA.row3.w = 1 then
    -- flat space: n = 4 works for the expected reflections and half-turns
    Except.ok (buildLens ops 4 aMatrixA aMatrixB)
  else if aMatrixA.row3.w < 1 then
    -- lens space: infer the order from the zw-rotation
    if aMatrixA.row0.z ≠ 0 ∨ aMatrixA.row0.w ≠ 0
       ∨ aMatrixA.row1.z ≠ 0 ∨ aMatrixA.row1.w ≠ 0
       ∨ aMatrixA.row2.x ≠ 0 ∨ aMatrixA.row2.y ≠ 0
       ∨ aMatrixA.row3.x ≠ 0 ∨ aMatrixA.row3.y ≠ 0 then
      Except.error "MakeLens() confused by potential lens space."
    else
      let theApproximateN := (2 * piQ) / |ops.atan2Q aMatrixA.row3.z aMatrixA.row3.w|
      let n : ℤ := ⌊theApproximateN + 1 / 2⌋
      if |theApproximateN - (n : ℚ)| > orderEpsilon then
        Except.error "MakeLens() couldn't deduce order of potential lens space."
      else if n < 3 then
        Except.error "MakeLens() expected a lens space of order at least 3."
      else
        Except.ok (buildLens ops n.toNat aMatrixA aMatrixB)
  else
    Except.error "MakeLens() can't handle hyperbolic slab spaces."

end CurvedSpaces

namespace CurvedSpaces

/-! ### Polyhedron post-processing (`CurvedSpacesDirichlet.c`) -/

/-- The color-index assignment of `AssignFaceColors`: does the matrix at
position `j` match the geometric inverse of the matrix at position `i`
within `MATE_MATRIX_EPSILON`? -/
def faceMateMatches (ms : List Matrix) (i j : ℕ) : Bool :=
  matrixEquality (ms.getD j default) (matrixGeometricInverse (ms.getD i default))
    mateMatrixEpsilon

/-- The inner scan of `AssignFaceColors`: the first face after position
`i` whose matrix matches the geometric inverse of face `i`'s matrix. -/
def findMateIndex (ms : List Matrix) (i : ℕ) : Option ℕ :=
  ((List.range ms.length).drop (i + 1)).find? (faceMateMatches ms i)

/-- One iteration of the outer loop of `AssignFaceColors` at position
`i`: if face `i` has no color index yet, give it the next available one
and give the same index to its first matching later face (without
checking whether that face was already assigned, exactly as in C). -/
def assignFaceColorStep (ms : List Matrix) (st : List (Option ℕ) × ℕ) (i : ℕ) :
    List (Option ℕ) × ℕ :=
  if (st.1.getD i none).isSome then st
  else
    let withSelf := st.1.set i (some st.2)
    match findMateIndex ms i with
    | some j => (withSelf.set j (some st.2), st.2 + 1)
    | none => (withSelf, st.2 + 1)

/-- The index-assignment phase of `AssignFaceColors` over the face
matrices in list order, returning the per-face color indices and the
final pair count. -/
def assignFaceColorIndices (ms : List Matrix) : List (Option ℕ) × ℕ :=
  (List.range ms.length).foldl (assignFaceColorStep ms)
    (List.replicate ms.length none, 0)

/-- `AssignFaceColors` from `CurvedSpacesDirichlet.c`: assign matching
faces the same color index, then convert each index into an evenly
spaced hue (via the untranslated `HSLAtoRGBA`) and greyscale value. -/
def assignFaceColors (ops : AnalyticOps) (p : HEPolyhedron) : HEPolyhedron :=
  let ms := p.faceList.map fun q => q.2.matrix
  let theAssignment := assignFaceColorIndices ms
  { p with
      faceList := p.faceList.mapIdx fun pos q =>
        let theIndex := (theAssignment.1.getD pos none).getD 0
        let theColorParameter := (theIndex : ℚ) / (theAssignment.2 : ℚ)
        (q.1, { q.2 with
            colorIndex := theIndex
            colorRGBA := ops.hslaToRGBA ⟨theColorParameter, 0.3, 0.5, 1⟩
            colorGreyscale := (theColorParameter + 4) / 5 }) }

/-- `VectorNormalize` as called in `ComputeFaceCenters`, where the C
code ignores the error return: on failure the output field keeps its
previous value. -/
def normalizeOrKeep (ops : AnalyticOps) (a : Vector) (s : SpaceType)
    (previous : Vector) : Vector :=
  match vectorNormalize ops a s with
  | Except.ok u => u
  | Except.error _ => previous

/-- `ComputeFaceCenters` from `CurvedSpacesDirichlet.c`: each face
center is the midpoint between the basepoint `(0,0,0,1)` and its image
under the face's matrix, normalized to the unit 3-sphere and to the
space type. -/
def computeFaceCenters (ops : AnalyticOps) (p : HEPolyhedron) : HEPolyhedron :=
  { p with
      faceList := p.faceList.map fun q =>
        let theRawCenter : Vector :=
          ⟨(1 / 2) * q.2.matrix.row3.x, (1 / 2) * q.2.matrix.row3.y,
           (1 / 2) * q.2.matrix.row3.z, (1 / 2) * q.2.matrix.row3.w + 1 / 2⟩
        let theSphereCenter :=
          normalizeOrKeep ops theRawCenter SpaceType.spaceSpherical theRawCenter
        let theNormalizedCenter :=
          normalizeOrKeep ops theSphereCenter p.spaceType q.2.normalizedCenter
        (q.1, { q.2 with
            rawCenter := theSphereCenter
            normalizedCenter := theNormalizedCenter }) }

/-- The per-face pass of `ComputeWallDimensions`: walk the face cycle;
for each half edge, the triangle with base the following half edge and
apex the face center gets its base length and (via Heron's formula) its
altitude; thread the largest base seen so far. -/
def computeWallDimensionsFace (ops : AnalyticOps) (st : HEPolyhedron × ℚ) (f : ℕ) :
    HEPolyhedron × ℚ :=
  let theFaceCenter := (st.1.face f).normalizedCenter
  (faceCycle st.1 (st.1.face f).halfEdge).foldl
    (fun (st2 : HEPolyhedron × ℚ) e =>
      let q := st2.1
      let theNext := (q.edge e).cycle
      let theTail := (q.vert (q.edge e).tip).normalizedPosition
      let theTip := (q.vert (q.edge theNext).tip).normalizedPosition
      let theSide0 := ops.geometricDistance2 theTail theTip
      let theSide1 := ops.geometricDistance2 theTail theFaceCenter
      let theSide2 := ops.geometricDistance2 theTip theFaceCenter
      let s := (1 / 2) * (theSide0 + theSide1 + theSide2)
      let theArea := ops.sqrtQ (s * (s - theSide0) * (s - theSide1) * (s - theSide2))
      let q2 := q.setEdge theNext fun d =>
        { d with base := theSide0, altitude := 2 * theArea / theSide0 }
      (q2, if st2.2 < theSide0 then theSide0 else st2.2))
    st

/-- `ComputeWallDimensions` from `CurvedSpacesDirichlet.c`: compute
every half edge's triangle base and altitude, then rescale so the
largest base over the whole polyhedron equals 1. -/
def computeWallDimensions (ops : AnalyticOps) (p : HEPolyhedron) : HEPolyhedron :=
  let st := (p.faceList.map Prod.fst).foldl (computeWallDimensionsFace ops) (p, 0)
  let theMaxBase := st.2
  if theMaxBase > 0 then
    { st.1 with
        halfEdgeList := st.1.halfEdgeList.map fun q =>
          (q.1, { q.2 with
              base := q.2.base / theMaxBase
              altitude := q.2.altitude / theMaxBase }) }
  else
    st.1

/-- Walk the half edges around a vertex (`e := e.mate.cycle`), with the
same fuel bound as the face-cycle walk. -/
def vertexStarAux (p : HEPolyhedron) (start : ℕ) : ℕ → ℕ → List ℕ
  | 0, _ => []
  | Nat.succ fuel, e =>
      e :: (if (p.edge (p.edge e).mate).cycle = start then []
            else vertexStarAux p start fuel (p.edge (p.edge e).mate).cycle)

/-- The outbound half edges around a vertex, in visit order. -/
def vertexStar (p : HEPolyhedron) (start : ℕ) : List ℕ :=
  vertexStarAux p start (p.halfEdgeList.length + 1) start

/-- `ComputeVertexFigures` from `CurvedSpacesDirichlet.c`: compute each
half edge's outer point (a point `VERTEX_FIGURE_SIZE` radians from the
edge's tail, tangent along the edge), each vertex's center point (the
normalized sum of the surrounding outer points), and each half edge's
inner point (the `VERTEX_FIGURE_CUTOUT` blend of its outer point with
the center point at its tail).  Propagates the first normalization
error, exactly as the C code returns it. -/
def computeVertexFigures (ops : AnalyticOps) (p : HEPolyhedron) :
    Except String HEPolyhedron := do
  let pA ← (p.halfEdgeList.map Prod.fst).foldlM
    (fun (q : HEPolyhedron) e => do
      let theTail := (q.vert (q.edge (q.edge e).mate).tip).rawPosition
      let theTip := (q.vert (q.edge e).tip).rawPosition
      let theDotProduct := vectorDotProduct theTail theTip
      let theComponent := scalarTimesVector theDotProduct theTail
      let theNormal0 := vectorDifference theTip theComponent
      let theNormal ← vectorNormalize ops theNormal0 SpaceType.spaceSpherical
      let theOuterPoint0 := vectorSum
        (scalarTimesVector (ops.cosQ vertexFigureSize) theTail)
        (scalarTimesVector (ops.sinQ vertexFigureSize) theNormal)
      let theOuterPoint ← vectorNormalize ops theOuterPoint0 q.spaceType
      pure (q.setEdge e fun d => { d with outerPoint := theOuterPoint }))
    p
  let pB ← (pA.vertexList.map Prod.fst).foldlM
    (fun (q : HEPolyhedron) v => do
      let theSum := (vertexStar q (q.vert v).outboundHalfEdge).foldl
        (fun acc e => vectorSum acc (q.edge e).outerPoint) ⟨0, 0, 0, 0⟩
      let theCenterPoint ← vectorNormalize ops theSum q.spaceType
      pure (q.setVert v fun d => { d with centerPoint := theCenterPoint }))
    pA
  (pB.halfEdgeList.map Prod.fst).foldlM
    (fun (q : HEPolyhedron) e => do
      let theScaledPointA := scalarTimesVector vertexFigureCutout (q.edge e).outerPoint
      let theScaledPointB := scalarTimesVector (1 - vertexFigureCutout)
        (q.vert (q.edge (q.edge e).mate).tip).centerPoint
      let theInnerPoint ← vectorNormalize ops
        (vectorSum theScaledPointA theScaledPointB) q.spaceType
      pure (q.setEdge e fun d => { d with innerPoint := theInnerPoint }))
    pB

/-- `ComputeOutradius` from `CurvedSpacesDirichlet.c`: the maximum
geometric distance from the basepoint to any vertex. -/
def computeOutradius (ops : AnalyticOps) (p : HEPolyhedron) : HEPolyhedron :=
  { p with
      outradius := p.vertexList.foldl
        (fun acc q =>
          let theDistance := ops.geometricDistance q.2.normalizedPosition
          if acc < theDistance then theDistance else acc)
        0 }

end CurvedSpaces

namespace CurvedSpaces

/-! ### `ConstructDirichletDomain` (`CurvedSpacesDirichlet.c`) -/

/-- The search for the third seed generator: the first index from 3 on
whose halfspace is linearly independent of those of generators 1 and 2
(squared ternary-cross-product length above `PLANARITY_EPSILON`);
`g.length` when none qualifies, mirroring the C loop counter. -/
def findThirdIndex (g : List Matrix) (theHalfspaceA theHalfspaceB : Vector) : ℕ :=
  match ((List.range g.length).drop 3).find? (fun i =>
      let theHalfspaceC := makeHalfspaceInequality (g.getD i default)
      let theCrossProduct :=
        vectorTernaryCrossProduct theHalfspaceA theHalfspaceB theHalfspaceC
      decide (|vectorDotProduct theCrossProduct theCrossProduct| > planarityEpsilon)) with
  | some i => i
  | none => g.length

/-- The search for the fourth seed generator: the first index after the
third whose halfspace avoids the banana's (antipodal) vertices, tested
against the raw position of the head of the vertex list, exactly as the
C code dereferences `itsVertexList`. -/
def findFourthIndex (g : List Matrix) (theThirdIndex : ℕ) (theBanana : HEPolyhedron) :
    Option ℕ :=
  ((List.range g.length).drop (theThirdIndex + 1)).find? (fun i =>
    let theHalfspaceD := makeHalfspaceInequality (g.getD i default)
    let theFirstVertexPosition := ((theBanana.vertexList.headD default).2).rawPosition
    decide (|vectorDotProduct theHalfspaceD theFirstVertexPosition|
      > hyperplanarityEpsilon))

/-- The seed-construction phase of `ConstructDirichletDomain`: build a
banana from the first three independent generators and cut it with a
fourth into a tetrahedron, or fall back to the lens/slab construction
when no three independent generators exist. -/
def constructSeed (ops : AnalyticOps) (g : List Matrix) :
    Except String HEPolyhedron :=
  let theHalfspaceA := makeHalfspaceInequality (g.getD 1 default)
  let theHalfspaceB := makeHalfspaceInequality (g.getD 2 default)
  let theThirdIndex := findThirdIndex g theHalfspaceA theHalfspaceB
  if theThirdIndex < g.length then
    let theBanana := makeBanana (g.getD 1 default) (g.getD 2 default)
      (g.getD theThirdIndex default)
    match findFourthIndex g theThirdIndex theBanana with
    | some theFourthIndex =>
        intersectWithHalfspace theBanana (g.getD theFourthIndex default)
    | none => Except.error "Chimney-like spaces not supported."
  else
    makeLens ops (g.getD 1 default) (g.getD 2 default)

/-- The space type recorded from the sign class of generator 1's
`(3,3)` entry. -/
def spaceTypeOfGenerator (m : Matrix) : SpaceType :=
  if m.row3.w < 1 then SpaceType.spaceSpherical
  else if m.row3.w = 1 then SpaceType.spaceFlat
  else SpaceType.spaceHyperbolic

/-- The first vertex-normalization loop of `ConstructDirichletDomain`:
normalize each vertex's raw position relative to the recorded space
type, storing the result in `normalizedPosition` and propagating the
first error in list order. -/
def normalizeVerticesToSpace (ops : AnalyticOps) (p : HEPolyhedron) :
    Except String HEPolyhedron :=
  (p.vertexList.map Prod.fst).foldlM
    (fun (q : HEPolyhedron) v => do
      let theNormalized ← vectorNormalize ops (q.vert v).rawPosition q.spaceType
      pure (q.setVert v fun d => { d with normalizedPosition := theNormalized }))
    p

/-- The second vertex-normalization loop: normalize each vertex's raw
position to the unit 3-sphere in place, regardless of the true space
type. -/
def normalizeVerticesToSphere (ops : AnalyticOps) (p : HEPolyhedron) :
    Except String HEPolyhedron :=
  (p.vertexList.map Prod.fst).foldlM
    (fun (q : HEPolyhedron) v => do
      let theNormalized ← vectorNormalize ops (q.vert v).rawPosition
        SpaceType.spaceSpherical
      pure (q.setVert v fun d => { d with rawPosition := theNormalized }))
    p

/-- `ConstructDirichletDomain` from `CurvedSpacesDirichlet.c`: given the
holonomy group's matrix list (element 0 expected to be the identity),
construct the Dirichlet domain.  Fewer than 3 matrices in total is the
special case: at least one matrix (the 3-sphere `{Id}` or projective
space `{±Id}`) returns success with no polyhedron, an empty list is an
error.  Otherwise seed a banana/tetrahedron or lens, intersect with the
halfspace of every group element in order, record the space type,
normalize the vertices, and run the post-processing passes.  Memory
exhaustion, the remaining C error path, is not modelled. -/
def constructDirichletDomain (ops : AnalyticOps) (aHolonomyGroup : List Matrix) :
    Except String (Option HEPolyhedron) :=
  if aHolonomyGroup.length < 3 then
    if aHolonomyGroup.length > 0 then
      Except.ok none
    else
      Except.error "ConstructDirichletDomain() received no matrices."
  else if ¬ matrixIsIdentity (aHolonomyGroup.getD 0 default) then
    Except.error "ConstructDirichletDomain() expects the first matrix to be the identity."
  else do
    let theSeed ← constructSeed ops aHolonomyGroup
    let theCutDomain ← aHolonomyGroup.foldlM intersectWithHalfspace theSeed
    let theTypedDomain :=
      { theCutDomain with
          spaceType := spaceTypeOfGenerator (aHolonomyGroup.getD 1 default) }
    let theNormalizedDomain ← normalizeVerticesToSpace ops theTypedDomain
    let theSphereDomain ← normalizeVerticesToSphere ops theNormalizedDomain
    let theColoredDomain := assignFaceColors ops theSphereDomain
    let theCenteredDomain := computeFaceCenters ops theColoredDomain
    let theMeasuredDomain := computeWallDimensions ops theCenteredDomain
    let theFiguredDomain ← computeVertexFigures ops theMeasuredDomain
    pure (some (computeOutradius ops theFiguredDomain))

end CurvedSpaces


namespace CurvedSpaces

/-! ### The slab group: a concrete run of `ConstructDirichletDomain` -/

/-- The flat unit translation along `z`. -/
def transZ : Matrix := { matrixIdentity with row3 := ⟨0, 0, 1, 1⟩ }
/-- The inverse flat unit translation along `z`. -/
def transZinv : Matrix := { matrixIdentity with row3 := ⟨0, 0, -1, 1⟩ }
/-- The identity and the two `z`-translations: a holonomy-group fragment
with 3 matrices in total but only 2 non-identity matrices. -/
def slabGroup : List Matrix := [matrixIdentity, transZ, transZinv]

/-- The slab that `makeLens` builds for `transZ`/`transZinv` (computed once
and checked by `slab_seed`): four idealized vertices at `(1,0,0,0)` with
`w = 0`, two square faces.  The parameter is the common vertex status. -/
def slabLens (st : VertexVsHalfspace) : HEPolyhedron :=
  { vertexList :=
      [(3, { rawPosition := ⟨1, 0, 0, 0⟩, normalizedPosition := ⟨0, 0, 0, 0⟩,
             outboundHalfEdge := 10, halfspaceStatus := st, centerPoint := ⟨0, 0, 0, 0⟩ }),
       (2, { rawPosition := ⟨1, 0, 0, 0⟩, normalizedPosition := ⟨0, 0, 0, 0⟩,
             outboundHalfEdge := 8, halfspaceStatus := st, centerPoint := ⟨0, 0, 0, 0⟩ }),
       (1, { rawPosition := ⟨1, 0, 0, 0⟩, normalizedPosition := ⟨0, 0, 0, 0⟩,
             outboundHalfEdge := 6, halfspaceStatus := st, centerPoint := ⟨0, 0, 0, 0⟩ }),
       (0, { rawPosition := ⟨1, 0, 0, 0⟩, normalizedPosition := ⟨0, 0, 0, 0⟩,
             outboundHalfEdge := 4, halfspaceStatus := st, centerPoint := ⟨0, 0, 0, 0⟩ })]
    halfEdgeList :=
      [(11, { (default : HEHalfEdge) with tip := 3, mate := 10, cycle := 9, face := 13 }),
       (10, { (default : HEHalfEdge) with tip := 0, mate := 11, cycle := 4, face := 12 }),
       (9, { (default : HEHalfEdge) with tip := 2, mate := 8, cycle := 7, face := 13 }),
       (8, { (default : HEHalfEdge) with tip := 3, mate := 9, cycle := 10, face := 12 }),
       (7, { (default : HEHalfEdge) with tip := 1, mate := 6, cycle := 5, face := 13 }),
       (6, { (default : HEHalfEdge) with tip := 2, mate := 7, cycle := 8, face := 12 }),
       (5, { (default : HEHalfEdge) with tip := 0, mate := 4, cycle := 11, face := 13 }),
       (4, { (default : HEHalfEdge) with tip := 1, mate := 5, cycle := 6, face := 12 })]
    faceList :=
      [(13, { (default : HEFace) with
                halfEdge := 5
                halfspace := ⟨0, 0, -1, -(1/2)⟩
                matrix := transZinv }),
       (12, { (default : HEFace) with
                halfEdge := 4
                halfspace := ⟨0, 0, 1, -(1/2)⟩
                matrix := transZ })]
    spaceType := SpaceType.spaceNone
    outradius := 0
    freshId := 14 }

/-- Reduction helper: binding a successful `Except` applies the continuation. -/
theorem except_ok_bind {α β : Type} (a : α) (f : α → Except String β) :
    (Except.ok a >>= f) = f a := rfl

/-- Reduction helper: binding a failed `Except` propagates the error. -/
theorem except_error_bind {α β : Type} (e : String) (f : α → Except String β) :
    ((Except.error e : Except String α) >>= f) = Except.error e := rfl

/-- Helper: a cut by the identity matrix is skipped and succeeds unchanged. -/
theorem intersectWithHalfspace_identity (p : HEPolyhedron) :
    intersectWithHalfspace p matrixIdentity = Except.ok p := by
  simp [intersectWithHalfspace, matrixIsIdentity, matrixIdentity]

set_option maxHeartbeats 1000000 in
/-- The slab group's seed phase falls through to the lens/slab construction
and yields the two-faced slab with all vertices initially inside. -/
theorem slab_seed :
    constructSeed sampleOps slabGroup
      = Except.ok (slabLens VertexVsHalfspace.vertexInsideHalfspace) := by
  norm_num [constructSeed, findThirdIndex, slabGroup, makeLens, buildLens, sampleOps,
    makeHalfspaceInequality, vectorDotProduct, matrixIdentity, transZ, transZinv,
    slabLens, List.range_succ]
  exact ⟨rfl, rfl, rfl⟩

set_option maxHeartbeats 1000000 in
/-- Cutting the slab by `transZ` is a trivial cut: every idealized vertex lies
on the cutting hyperplane, so only the statuses are rewritten. -/
theorem slab_cut_transZ :
    intersectWithHalfspace (slabLens VertexVsHalfspace.vertexInsideHalfspace) transZ
      = Except.ok (slabLens VertexVsHalfspace.vertexOnBoundary) := by
  norm_num [intersectWithHalfspace, matrixIsIdentity, transZ, matrixIdentity,
    makeHalfspaceInequality, vectorDotProduct, intersectClassifyVertices,
    vertexVsHalfspaceStatus, vertexHalfspaceEpsilon, cutIsNontrivial, slabLens]
  intro h
  exact absurd h (by decide)

set_option maxHeartbeats 1000000 in
/-- Cutting the slab by `transZinv` is likewise a trivial cut. -/
theorem slab_cut_transZinv :
    intersectWithHalfspace (slabLens VertexVsHalfspace.vertexOnBoundary) transZinv
      = Except.ok (slabLens VertexVsHalfspace.vertexOnBoundary) := by
  norm_num [intersectWithHalfspace, matrixIsIdentity, transZinv, matrixIdentity,
    makeHalfspaceInequality, vectorDotProduct, intersectClassifyVertices,
    vertexVsHalfspaceStatus, vertexHalfspaceEpsilon, cutIsNontrivial, slabLens]
  intro h
  exact absurd h (by decide)

set_option maxHeartbeats 1000000 in
/-- Normalizing the slab's idealized vertices (all with `w = 0`) in the flat
space fails with the degenerate-vector error. -/
theorem slab_normalize_error :
    normalizeVerticesToSpace sampleOps
      { slabLens VertexVsHalfspace.vertexOnBoundary with spaceType := SpaceType.spaceFlat }
      = Except.error "VectorNormalize() received a degenerate vector." := by
  norm_num [normalizeVerticesToSpace, slabLens, vectorNormalize, sampleOps,
    HEPolyhedron.vert, List.lookup, List.foldlM_cons, List.foldlM_nil,
    except_ok_bind, except_error_bind]

set_option maxHeartbeats 1000000 in
/-- `ConstructDirichletDomain` on the slab group of the ℤ-action generated
by a unit translation along z: the run fails inside vertex normalization. -/
theorem constructDirichletDomain_slab :
    constructDirichletDomain sampleOps slabGroup
      = Except.error "VectorNormalize() received a degenerate vector." := by
  have hid : matrixIsIdentity (slabGroup.getD 0 default) = true := by
    norm_num [slabGroup, matrixIsIdentity, matrixIdentity]
  have hfold : slabGroup.foldlM intersectWithHalfspace
      (slabLens VertexVsHalfspace.vertexInsideHalfspace)
      = Except.ok (slabLens VertexVsHalfspace.vertexOnBoundary) := by
    simp only [slabGroup, List.foldlM_cons, List.foldlM_nil,
      intersectWithHalfspace_identity, except_ok_bind, slab_cut_transZ,
      slab_cut_transZinv]
    rfl
  have hspace : spaceTypeOfGenerator (slabGroup.getD 1 default) = SpaceType.spaceFlat := by
    norm_num [slabGroup, spaceTypeOfGenerator, transZ, matrixIdentity]
  unfold constructDirichletDomain
  rw [if_neg (by norm_num [slabGroup]),
    if_neg (by norm_num [slabGroup, matrixIsIdentity, matrixIdentity])]
  show (constructSeed sampleOps slabGroup >>= _) = _
  rw [slab_seed, except_ok_bind, hfold, except_ok_bind, hspace]
  simp only [slab_normalize_error, except_error_bind]


/-- C2 counterexample: the slab group `{Id, T, T⁻¹}` of a unit translation
along z has only 2 non-identity matrices and is nonempty, yet
`constructDirichletDomain` returns neither success-with-no-polyhedron nor
the no-matrices error: it fails inside vertex normalization, because the
special case tests the total matrix count (3 here), not the non-identity
count. -/
theorem constructDirichletDomain_slab_counterexample :
    (slabGroup.filter (fun m => ! matrixIsIdentity m)).length < 3
    ∧ slabGroup ≠ []
    ∧ constructDirichletDomain sampleOps slabGroup ≠ Except.ok none
    ∧ constructDirichletDomain sampleOps slabGroup
        ≠ Except.error "ConstructDirichletDomain() received no matrices." := by
  refine ⟨?_, by simp [slabGroup], ?_, ?_⟩
  · norm_num [slabGroup, matrixIsIdentity, matrixIdentity, transZ, transZinv,
      List.filter]
  · rw [constructDirichletDomain_slab]
    simp
  · rw [constructDirichletDomain_slab]
    simp

/-- C2 (amended): `ConstructDirichletDomain` special-cases fewer than 3
matrices in total (identity included), not fewer than 3 non-identity
matrices: a nonempty list of fewer than 3 matrices returns success with no
polyhedron, and the empty list returns the no-matrices error.  In
particular `{identity}` alone returns success with no polyhedron. -/
theorem constructDirichletDomain_small_list (ops : AnalyticOps) (g : List Matrix)
    (h : g.length < 3) :
    constructDirichletDomain ops g
      = if g.length > 0 then Except.ok none
        else Except.error "ConstructDirichletDomain() received no matrices." := by
  unfold constructDirichletDomain
  rw [if_pos h]

/-- C2 witness: the singleton list `{identity}` has fewer than 3 matrices
and yields success with no polyhedron. -/
theorem constructDirichletDomain_small_list_witness :
    [matrixIdentity].length < 3
    ∧ constructDirichletDomain sampleOps [matrixIdentity] = Except.ok none := by
  constructor
  · norm_num
  · rw [constructDirichletDomain_small_list sampleOps [matrixIdentity] (by norm_num)]
    norm_num

end CurvedSpaces

namespace CurvedSpaces

/-- `List.getD` after `set` at the written position. -/
theorem getD_set_self {α : Type} (l : List α) (i : ℕ) (v d : α) (h : i < l.length) :
    (l.set i v).getD i d = v := by
  simp [List.getD, List.getElem?_set, h]

/-- `List.getD` after `set` at a different position. -/
theorem getD_set_ne {α : Type} (l : List α) (i j : ℕ) (v d : α) (h : i ≠ j) :
    (l.set i v).getD j d = l.getD j d := by
  simp [List.getD, List.getElem?_set, h]

/-- A successful `findMateIndex` returns a strictly later in-range face
whose matrix matches. -/
theorem findMateIndex_some {ms : List Matrix} {i j : ℕ}
    (h : findMateIndex ms i = some j) :
    i < j ∧ j < ms.length ∧ faceMateMatches ms i j = true := by
  unfold findMateIndex at h
  have hmem := List.mem_of_find?_eq_some h
  have hp := List.find?_some h
  rw [List.mem_drop_iff_getElem] at hmem
  obtain ⟨t, ht, hv⟩ := hmem
  simp only [List.length_range] at ht
  rw [List.getElem_range] at hv
  exact ⟨by omega, by omega, hp⟩

/-- A failed `findMateIndex` means no strictly later in-range face
matches. -/
theorem findMateIndex_none {ms : List Matrix} {i : ℕ}
    (h : findMateIndex ms i = none) :
    ∀ j, i < j → j < ms.length → faceMateMatches ms i j = false := by
  intro j hij hj
  unfold findMateIndex at h
  have hmem : j ∈ (List.range ms.length).drop (i + 1) := by
    rw [List.mem_drop_iff_getElem]
    refine ⟨j - (i + 1), by simp only [List.length_range]; omega, ?_⟩
    rw [List.getElem_range]
    omega
  have := List.find?_eq_none.mp h j hmem
  simpa using this

/-- The loop invariant of the index-assignment fold of `AssignFaceColors`
after the first `k` faces have been processed: (1) the index list keeps its
length; (2) a face is assigned exactly when it has been processed or some
processed face matched it; (3) assigned indices are below the counter;
(4) two distinct faces share an index only if they match; (5) a matched
pair whose earlier member has been processed shares an index. -/
def pairingInv (ms : List Matrix) (k : ℕ) (st : List (Option ℕ) × ℕ) : Prop :=
  st.1.length = ms.length
  ∧ (∀ i, i < ms.length →
      ((st.1.getD i none).isSome = true
        ↔ (i < k ∨ ∃ t, t < k ∧ faceMateMatches ms t i = true)))
  ∧ (∀ i v, st.1.getD i none = some v → v < st.2)
  ∧ (∀ i j, i < ms.length → j < ms.length → i ≠ j →
      st.1.getD i none ≠ none → st.1.getD i none = st.1.getD j none →
      faceMateMatches ms i j = true)
  ∧ (∀ i j, i < j → j < ms.length → faceMateMatches ms i j = true → i < k →
      st.1.getD i none = st.1.getD j none ∧ st.1.getD i none ≠ none)

/-- The invariant holds before any face is processed. -/
theorem pairingInv_init (ms : List Matrix) :
    pairingInv ms 0 (List.replicate ms.length none, 0) := by
  refine ⟨by simp, ?_, ?_, ?_, ?_⟩
  · intro i hi
    simp [List.getD]
  · intro i v h
    simp [List.getD] at h
  · intro i j hi hj hij hne
    simp [List.getD] at hne
  · intro i j hij hj hm hk
    omega

/-- One pass of the outer loop preserves the invariant, provided the match
relation is symmetric and functional on the in-range indices. -/
theorem pairingInv_step (ms : List Matrix)
    (Hsym : ∀ i j, i < ms.length → j < ms.length →
      faceMateMatches ms i j = faceMateMatches ms j i)
    (Hfun : ∀ i j l, i < ms.length → j < ms.length → l < ms.length →
      faceMateMatches ms i j = true → faceMateMatches ms i l = true → j = l)
    (k : ℕ) (hk : k < ms.length) (st : List (Option ℕ) × ℕ)
    (hInv : pairingInv ms k st) :
    pairingInv ms (k + 1) (assignFaceColorStep ms st k) := by
  obtain ⟨hlen, hI1, hI2, hI3, hI4⟩ := hInv
  unfold assignFaceColorStep
  by_cases hak : (st.1.getD k none).isSome = true
  · rw [if_pos hak]
    have hkex : ∃ t, t < k ∧ faceMateMatches ms t k = true := by
      rcases (hI1 k hk).mp hak with h | h
      · omega
      · exact h
    refine ⟨hlen, ?_, hI2, hI3, ?_⟩
    · intro i hi
      rw [hI1 i hi]
      constructor
      · rintro (h | ⟨t, ht, hm⟩)
        · exact Or.inl (by omega)
        · exact Or.inr ⟨t, by omega, hm⟩
      · rintro (h | ⟨t, ht, hm⟩)
        · rcases Nat.lt_or_ge i k with h' | h'
          · exact Or.inl h'
          · have hik : i = k := by omega
            subst hik
            exact Or.inr hkex
        · rcases Nat.lt_or_ge t k with h' | h'
          · exact Or.inr ⟨t, h', hm⟩
          · have htk : t = k := by omega
            subst htk
            obtain ⟨u, hu, hmu⟩ := hkex
            have hmu' : faceMateMatches ms t u = true := by
              rw [← Hsym u t (by omega) (by omega)]
              exact hmu
            have := Hfun t i u hk hi (by omega) hm hmu'
            exact Or.inl (by omega)
    · intro i j hij hj hm hik1
      rcases Nat.lt_or_ge i k with h' | h'
      · exact hI4 i j hij hj hm h'
      · have hik : i = k := by omega
        subst hik
        obtain ⟨u, hu, hmu⟩ := hkex
        have hmu' : faceMateMatches ms i u = true := by
          rw [← Hsym u i (by omega) (by omega)]
          exact hmu
        have := Hfun i j u (by omega) hj (by omega) hm hmu'
        omega
  · rw [if_neg hak]
    have haknone : st.1.getD k none = none := by
      cases h : st.1.getD k none
      · rfl
      · rw [h] at hak
        simp at hak
    have hklen : k < st.1.length := by omega
    cases hf : findMateIndex ms k with
    | some j =>
        show pairingInv ms (k + 1)
          ((st.1.set k (some st.2)).set j (some st.2), st.2 + 1)
        obtain ⟨hkj, hjn, hmkj⟩ := findMateIndex_some hf
        have hjk : j ≠ k := by omega
        have hA'k : ((st.1.set k (some st.2)).set j (some st.2)).getD k none
            = some st.2 := by
          rw [getD_set_ne _ _ _ _ _ hjk, getD_set_self _ _ _ _ hklen]
        have hA'j : ((st.1.set k (some st.2)).set j (some st.2)).getD j none
            = some st.2 := by
          rw [getD_set_self]
          rw [List.length_set]
          omega
        have hA'other : ∀ i, i ≠ k → i ≠ j →
            ((st.1.set k (some st.2)).set j (some st.2)).getD i none
              = st.1.getD i none := by
          intro i hik hij
          rw [getD_set_ne _ _ _ _ _ (Ne.symm hij), getD_set_ne _ _ _ _ _ (Ne.symm hik)]
        refine ⟨by simp [hlen], ?_, ?_, ?_, ?_⟩
        · intro i hi
          by_cases hik : i = k
          · subst hik
            rw [hA'k]
            simp only [Option.isSome_some, true_iff]
            exact Or.inl (by omega)
          · by_cases hij : i = j
            · subst hij
              rw [hA'j]
              simp only [Option.isSome_some, true_iff]
              exact Or.inr ⟨k, by omega, hmkj⟩
            · rw [hA'other i hik hij, hI1 i hi]
              constructor
              · rintro (h | ⟨t, ht, hm⟩)
                · exact Or.inl (by omega)
                · exact Or.inr ⟨t, by omega, hm⟩
              · rintro (h | ⟨t, ht, hm⟩)
                · exact Or.inl (by omega)
                · rcases Nat.lt_or_ge t k with h' | h'
                  · exact Or.inr ⟨t, h', hm⟩
                  · have htk : t = k := by omega
                    subst htk
                    exact absurd (Hfun t i j hk hi hjn hm hmkj) hij
        · intro i v hv
          by_cases hik : i = k
          · subst hik
            rw [hA'k] at hv
            have hvv := Option.some.inj hv
            omega
          · by_cases hij : i = j
            · subst hij
              rw [hA'j] at hv
              have hvv := Option.some.inj hv
              omega
            · rw [hA'other i hik hij] at hv
              have := hI2 i v hv
              omega
        · intro i j' hi hj' hij' hne heq
          by_cases hik : i = k
          · subst hik
            by_cases hj'j : j' = j
            · subst hj'j
              exact hmkj
            · have hj'k : j' ≠ i := Ne.symm hij'
              rw [hA'k, hA'other j' hj'k hj'j] at heq
              have := hI2 j' st.2 heq.symm
              omega
          · by_cases hij : i = j
            · subst hij
              by_cases hj'k : j' = k
              · subst hj'k
                rw [← Hsym j' i (by omega) hi]
                exact hmkj
              · have hj'j : j' ≠ i := Ne.symm hij'
                rw [hA'j, hA'other j' hj'k hj'j] at heq
                have := hI2 j' st.2 heq.symm
                omega
            · rw [hA'other i hik hij] at hne heq
              by_cases hj'k : j' = k
              · subst hj'k
                rw [hA'k] at heq
                have := hI2 i st.2 heq
                omega
              · by_cases hj'j : j' = j
                · subst hj'j
                  rw [hA'j] at heq
                  have := hI2 i st.2 heq
                  omega
                · rw [hA'other j' hj'k hj'j] at heq
                  exact hI3 i j' hi hj' hij' hne heq
        · intro i j' hij' hj'n hm hik1
          rcases Nat.lt_or_ge i k with h' | h'
          · have hik : i ≠ k := by omega
            have hijne : i ≠ j := by omega
            obtain ⟨heq, hne⟩ := hI4 i j' hij' hj'n hm h'
            have hj'k : j' ≠ k := by
              intro h
              subst h
              rw [heq] at hne
              exact hne haknone
            have hj'j : j' ≠ j := by
              intro h
              subst h
              have hmji : faceMateMatches ms j' i = true := by
                rw [← Hsym i j' (by omega) hj'n]
                exact hm
              have hmjk : faceMateMatches ms j' k = true := by
                rw [← Hsym k j' hk hj'n]
                exact hmkj
              have := Hfun j' i k hj'n (by omega) hk hmji hmjk
              omega
            rw [hA'other i hik hijne, hA'other j' hj'k hj'j]
            exact ⟨heq, hne⟩
          · have hik : i = k := by omega
            subst hik
            have hj'j : j' = j := Hfun i j' j (by omega) hj'n hjn hm hmkj
            subst hj'j
            rw [hA'k, hA'j]
            exact ⟨rfl, by simp⟩
    | none =>
        show pairingInv ms (k + 1) (st.1.set k (some st.2), st.2 + 1)
        have hnone := findMateIndex_none hf
        have hA'k : (st.1.set k (some st.2)).getD k none = some st.2 :=
          getD_set_self _ _ _ _ hklen
        have hA'other : ∀ i, i ≠ k →
            (st.1.set k (some st.2)).getD i none = st.1.getD i none := by
          intro i hik
          rw [getD_set_ne _ _ _ _ _ (Ne.symm hik)]
        refine ⟨by simp [hlen], ?_, ?_, ?_, ?_⟩
        · intro i hi
          by_cases hik : i = k
          · subst hik
            rw [hA'k]
            simp only [Option.isSome_some, true_iff]
            exact Or.inl (by omega)
          · rw [hA'other i hik, hI1 i hi]
            constructor
            · rintro (h | ⟨t, ht, hm⟩)
              · exact Or.inl (by omega)
              · exact Or.inr ⟨t, by omega, hm⟩
            · rintro (h | ⟨t, ht, hm⟩)
              · exact Or.inl (by omega)
              · rcases Nat.lt_or_ge t k with h' | h'
                · exact Or.inr ⟨t, h', hm⟩
                · have htk : t = k := by omega
                  subst htk
                  rcases Nat.lt_or_ge i t with h'' | h''
                  · exact Or.inl h''
                  · have := hnone i (by omega) hi
                    rw [hm] at this
                    cases this
        · intro i v hv
          by_cases hik : i = k
          · subst hik
            rw [hA'k] at hv
            have hvv := Option.some.inj hv
            omega
          · rw [hA'other i hik] at hv
            have := hI2 i v hv
            omega
        · intro i j' hi hj' hij' hne heq
          by_cases hik : i = k
          · subst hik
            have hj'k : j' ≠ i := Ne.symm hij'
            rw [hA'k, hA'other j' hj'k] at heq
            have := hI2 j' st.2 heq.symm
            omega
          · rw [hA'other i hik] at hne heq
            by_cases hj'k : j' = k
            · subst hj'k
              rw [hA'k] at heq
              have := hI2 i st.2 heq
              omega
            · rw [hA'other j' hj'k] at heq
              exact hI3 i j' hi hj' hij' hne heq
        · intro i j' hij' hj'n hm hik1
          rcases Nat.lt_or_ge i k with h' | h'
          · have hik : i ≠ k := by omega
            obtain ⟨heq, hne⟩ := hI4 i j' hij' hj'n hm h'
            have hj'k : j' ≠ k := by
              intro h
              subst h
              rw [heq] at hne
              exact hne haknone
            rw [hA'other i hik, hA'other j' hj'k]
            exact ⟨heq, hne⟩
          · have hik : i = k := by omega
            subst hik
            have := hnone j' (by omega) hj'n
            rw [hm] at this
            cases this

/-- The invariant holds after processing any prefix of the face list. -/
theorem pairingInv_fold (ms : List Matrix)
    (Hsym : ∀ i j, i < ms.length → j < ms.length →
      faceMateMatches ms i j = faceMateMatches ms j i)
    (Hfun : ∀ i j l, i < ms.length → j < ms.length → l < ms.length →
      faceMateMatches ms i j = true → faceMateMatches ms i l = true → j = l) :
    ∀ k, k ≤ ms.length →
      pairingInv ms k ((List.range k).foldl (assignFaceColorStep ms)
        (List.replicate ms.length none, 0)) := by
  intro k
  induction k with
  | zero =>
      intro _
      exact pairingInv_init ms
  | succ k ih =>
      intro hk1
      rw [List.range_succ, List.foldl_append, List.foldl_cons, List.foldl_nil]
      exact pairingInv_step ms Hsym Hfun k (by omega) _ (ih (by omega))


/-- C4: after the color-index assignment of `AssignFaceColors` on a
face-matrix list whose mate relation (matrix agrees with the geometric
inverse within `MATE_MATRIX_EPSILON = 1e-6`) is symmetric and functional —
as for the face matrices of a constructed Dirichlet domain, whose matrices
come in exact inverse pairs — two distinct faces receive the same color
index precisely when one face's matrix agrees entry-wise within 1e-6 with
the geometric inverse of the other's: the pairing realized by equal color
indices is symmetric, pairs each face with at most one mate, and paired
faces' matrices are geometric inverses within tolerance. -/
theorem assignFaceColorIndices_pairing (ms : List Matrix)
    (Hsym : ∀ i j, i < ms.length → j < ms.length →
      faceMateMatches ms i j = faceMateMatches ms j i)
    (Hfun : ∀ i j l, i < ms.length → j < ms.length → l < ms.length →
      faceMateMatches ms i j = true → faceMateMatches ms i l = true → j = l)
    (i j : ℕ) (hi : i < ms.length) (hj : j < ms.length) (hij : i ≠ j) :
    ((assignFaceColorIndices ms).1.getD i none
        = (assignFaceColorIndices ms).1.getD j none)
      ↔ matrixEquality (ms.getD j default)
          (matrixGeometricInverse (ms.getD i default)) mateMatrixEpsilon = true := by
  have hInv : pairingInv ms ms.length (assignFaceColorIndices ms) := by
    unfold assignFaceColorIndices
    exact pairingInv_fold ms Hsym Hfun ms.length le_rfl
  obtain ⟨hlen, hI1, hI2, hI3, hI4⟩ := hInv
  constructor
  · intro heq
    have hsome : ((assignFaceColorIndices ms).1.getD i none).isSome = true :=
      (hI1 i hi).mpr (Or.inl hi)
    have hne : (assignFaceColorIndices ms).1.getD i none ≠ none := by
      intro h
      rw [h] at hsome
      simp at hsome
    have := hI3 i j hi hj hij hne heq
    simpa [faceMateMatches] using this
  · intro hm
    have hm' : faceMateMatches ms i j = true := by
      simpa [faceMateMatches] using hm
    rcases Nat.lt_or_ge i j with h | h
    · exact (hI4 i j h hj hm' (by omega)).1
    · have hmji : faceMateMatches ms j i = true := by
        rw [← Hsym i j hi hj]
        exact hm'
      exact ((hI4 j i (by omega) hi hmji (by omega)).1).symm

/-- C4 witness: on the two-face matrix list of the z-translation slab the
mate relation is symmetric and functional, and faces 0 and 1 share a color
index exactly because their matrices are geometric inverses. -/
theorem assignFaceColorIndices_pairing_witness :
    ((assignFaceColorIndices [transZ, transZinv]).1.getD 0 none
        = (assignFaceColorIndices [transZ, transZinv]).1.getD 1 none)
      ↔ matrixEquality ([transZ, transZinv].getD 1 default)
          (matrixGeometricInverse ([transZ, transZinv].getD 0 default))
          mateMatrixEpsilon = true := by
  refine assignFaceColorIndices_pairing [transZ, transZinv] ?_ ?_ 0 1
    (by norm_num) (by norm_num) (by norm_num)
  · intro i j hi hj
    simp only [List.length_cons, List.length_nil] at hi hj
    interval_cases i <;> interval_cases j <;>
      norm_num [faceMateMatches, matrixEquality, vectorEqualityEps,
        matrixGeometricInverse, transZ, transZinv, matrixIdentity,
        mateMatrixEpsilon]
  · intro i j l hi hj hl hm1 hm2
    simp only [List.length_cons, List.length_nil] at hi hj hl
    interval_cases i <;> interval_cases j <;> interval_cases l <;>
      first
        | rfl
        | (exfalso
           revert hm1 hm2
           norm_num [faceMateMatches, matrixEquality, vectorEqualityEps,
             matrixGeometricInverse, transZ, transZinv, matrixIdentity,
             mateMatrixEpsilon])

end CurvedSpaces

namespace CurvedSpaces

/-- Twice the Euler characteristic `V - E + F` of a half-edge mesh, with
`E` counted as half the half-edge records: `2V - H + 2F` where `H` is the
number of half-edges. -/
def eulerNumerator (p : HEPolyhedron) : ℤ :=
  2 * p.vertexList.length - p.halfEdgeList.length + 2 * p.faceList.length

/-- The banana seed satisfies Euler's formula: `V - E + F = 2 - 3 + 3 = 2`. -/
theorem makeBanana_euler (a b c : Matrix) :
    eulerNumerator (makeBanana a b c) = 4 := by
  simp [eulerNumerator, makeBanana]

/-- A flat-map producing two records per input doubles the length. -/
theorem length_flatMap_pair {α β : Type} (l : List α) (f g : α → β) :
    (l.flatMap fun i => [f i, g i]).length = 2 * l.length := by
  induction l with
  | nil => simp
  | cons x xs ih =>
      simp only [List.flatMap_cons, List.length_append, List.length_cons,
        List.length_nil, ih]
      omega

/-- The lens seed satisfies Euler's formula: `V - E + F = n - n + 2 = 2`. -/
theorem buildLens_euler (ops : AnalyticOps) (n : ℕ) (a b : Matrix) :
    eulerNumerator (buildLens ops n a b) = 4 := by
  simp only [eulerNumerator, buildLens, length_flatMap_pair, List.length_map,
    List.length_reverse, List.length_range, List.length_cons, List.length_nil]
  push_cast
  ring

end CurvedSpaces
